import Mathlib

/-!
Verification of the configuration-compilation core of the `slashid-agent-cdk`
repository (files `src/lib/slashid-agent.ts`, `src/lib/vpc-peering.ts`,
`src/lib/credentials.ts`).

The `SlashidAgent` construct is shallowly embedded as a state type
`AgentState` holding the mutable fields of the TypeScript class
(`containerEnv`, `fetchSecretsCommands`, `peeredVpcIds`, `envPrefixCounts`)
plus the CDK resources created through `ensureVpcConnectivity` (peering
connections and routes).  JavaScript `Record<string, string>` objects and
`Map`s are modelled as insertion-ordered association lists with
update-in-place semantics; JS `Set<string>` is an insertion-ordered
duplicate-free list.  Methods that `throw` return the state reached at the
point of the throw together with an `Option String` error (JS exceptions do
not roll back prior mutations).  CDK-side effects that live outside the
compiled state (IAM grants, security-group ingress rules, the EC2 instance
itself) are out of scope of the compiled configuration and are not part of
the state.
-/

/-- Insertion-ordered association-list update, mirroring JS object /
`Map.set` semantics: an existing key is updated in place, a new key is
appended. -/
def alSet {α : Type} : List (String × α) → String → α → List (String × α)
  | [], k, v => [(k, v)]
  | (k', v') :: rest, k, v =>
    if k' = k then (k, v) :: rest else (k', v') :: alSet rest k v

/-- Association-list lookup, mirroring JS property access / `Map.get`. -/
def alGet {α : Type} : List (String × α) → String → Option α
  | [], _ => none
  | (k', v') :: rest, k => if k' = k then some v' else alGet rest k

theorem alGet_alSet {α : Type} (m : List (String × α)) (k k' : String) (v : α) :
    alGet (alSet m k v) k' = if k = k' then some v else alGet m k' := by
  induction m with
  | nil => by_cases h : k = k' <;> simp [alSet, alGet, h]
  | cons p rest ih =>
    obtain ⟨k₀, v₀⟩ := p
    by_cases h0 : k₀ = k
    · subst h0
      by_cases h1 : k₀ = k' <;> simp [alSet, alGet, h1]
    · by_cases h1 : k₀ = k'
      · subst h1
        have h2 : ¬ k = k₀ := fun e => h0 e.symm
        simp [alSet, alGet, h0, h2]
      · simp [alSet, alGet, h0, h1, ih]

/-- Reference to an AWS Secrets Manager secret (`ISecret`): only the
attributes the agent code reads (`secretArn`, `secretName`). -/
structure ISecret where
  secretArn : String
  secretName : String
deriving DecidableEq

/-- `StringOrSecret` from `src/lib/credentials.ts`: a plain string, an
entire secret, or a `{ secret, field }` reference to one JSON field. -/
inductive StringOrSecret where
  | str (s : String)
  | secret (s : ISecret)
  | secretField (s : ISecret) (field : String)
deriving DecidableEq

/-- `Credential` from `src/lib/credentials.ts`. -/
structure Credential where
  username : StringOrSecret
  password : StringOrSecret
deriving DecidableEq

/-- `credentialFromSecret` from `src/lib/credentials.ts`. -/
def credentialFromSecret (secret : ISecret) (usernameField passwordField : String) :
    Credential :=
  { username := .secretField secret usernameField,
    password := .secretField secret passwordField }

/-- The part of an `ec2.IVpc` the agent code reads: its id, CIDR block and
the route tables of its public and private subnets. -/
structure Vpc where
  vpcId : String
  vpcCidrBlock : String
  publicSubnetRouteTableIds : List String
  privateSubnetRouteTableIds : List String
deriving DecidableEq

/-- A created `ec2.CfnVPCPeeringConnection`. -/
structure PeeringConnection where
  constructId : String
  vpcId : String
  peerVpcId : String
deriving DecidableEq

/-- A created `ec2.CfnRoute`. -/
structure CfnRoute where
  constructId : String
  routeTableId : String
  destinationCidrBlock : String
deriving DecidableEq

/-- The mutable state of one `SlashidAgent` instance: the fields of the
TypeScript class plus the peering resources created on its behalf. -/
structure AgentState where
  vpc : Vpc
  region : String
  containerEnv : List (String × String)
  fetchSecretsCommands : List String
  peeredVpcIds : List String
  envPrefixCounts : List (String × Nat)
  peerings : List PeeringConnection
  routes : List CfnRoute
deriving DecidableEq

/-- Insertion-ordered deduplication, mirroring collecting strings into a JS
`Set` and iterating it. -/
def dedupKeep : List String → List String
  | [] => []
  | x :: rest => x :: (dedupKeep rest).filter (fun y => ¬ (y = x))

/-- Result of `ensureVpcConnectivity`: the updated `peeredVpcIds` set and
the CDK resources created by the call. -/
structure EnsureResult where
  peeredVpcIds : List String
  peerings : List PeeringConnection
  routes : List CfnRoute
deriving DecidableEq

/-- `ensureVpcConnectivity` from `src/lib/vpc-peering.ts`: no-op when the
target VPC is the source VPC or already peered; otherwise records the
target id, creates one peering connection and one route per unique route
table of the source VPC's subnets. -/
def ensureVpcConnectivity (sourceVpc targetVpc : Vpc) (id : String)
    (peeredVpcIds : List String) : EnsureResult :=
  if targetVpc.vpcId = sourceVpc.vpcId then ⟨peeredVpcIds, [], []⟩
  else if targetVpc.vpcId ∈ peeredVpcIds then ⟨peeredVpcIds, [], []⟩
  else
    { peeredVpcIds := peeredVpcIds ++ [targetVpc.vpcId],
      peerings := [{ constructId := id ++ "VpcPeering",
                     vpcId := sourceVpc.vpcId,
                     peerVpcId := targetVpc.vpcId }],
      routes :=
        (dedupKeep (sourceVpc.publicSubnetRouteTableIds ++
            sourceVpc.privateSubnetRouteTableIds)).enum.map
          (fun p => { constructId := id ++ "Route" ++ toString p.1,
                      routeTableId := p.2,
                      destinationCidrBlock := targetVpc.vpcCidrBlock }) }

/-- `linkVpc` from `src/lib/slashid-agent.ts` (lines 255-258): delegates to
`ensureVpcConnectivity` with construct id `LinkVpc<size of peered set>`. -/
def linkVpc (st : AgentState) (vpc : Vpc) : AgentState :=
  let r := ensureVpcConnectivity st.vpc vpc
    ("LinkVpc" ++ toString st.peeredVpcIds.length) st.peeredVpcIds
  { st with peeredVpcIds := r.peeredVpcIds,
            peerings := st.peerings ++ r.peerings,
            routes := st.routes ++ r.routes }

/-- The `aws secretsmanager get-secret-value` lookup used by `addEnv`. -/
def fetchCmdFor (region : String) (s : ISecret) : String :=
  "aws secretsmanager get-secret-value --secret-id " ++ s.secretArn ++
    " --query SecretString --output text --region " ++ region

/-- `addEnv` from `src/lib/slashid-agent.ts` (lines 208-232).  A literal is
stored verbatim; a secret reference stores a placeholder
`secret(<name>)[.<field>]` and appends one fetch command.  An empty `field`
is JS-falsy, so `{ secret, field: "" }` takes the whole-secret branch. -/
def addEnv (st : AgentState) (name : String) (value : StringOrSecret) : AgentState :=
  match value with
  | .str v => { st with containerEnv := alSet st.containerEnv name v }
  | .secret s =>
    { st with
      containerEnv := alSet st.containerEnv name ("secret(" ++ s.secretName ++ ")"),
      fetchSecretsCommands := st.fetchSecretsCommands ++
        ["echo \"" ++ name ++ "=$(" ++ fetchCmdFor st.region s ++
          ")\" >> /run/slashid-agent-secrets.env"] }
  | .secretField s field =>
    if field = "" then
      { st with
        containerEnv := alSet st.containerEnv name ("secret(" ++ s.secretName ++ ")"),
        fetchSecretsCommands := st.fetchSecretsCommands ++
          ["echo \"" ++ name ++ "=$(" ++ fetchCmdFor st.region s ++
            ")\" >> /run/slashid-agent-secrets.env"] }
    else
      { st with
        containerEnv := alSet st.containerEnv name
          ("secret(" ++ s.secretName ++ ")." ++ field),
        fetchSecretsCommands := st.fetchSecretsCommands ++
          ["echo \"" ++ name ++ "=$(" ++ fetchCmdFor st.region s ++
            " | jq -r \x27." ++ field ++ "\x27)\" >> /run/slashid-agent-secrets.env"] }

/-- Modelling helper for the TS pattern `if (x !== undefined) this.addEnv(...)`. -/
def addEnvOpt (st : AgentState) (name : String) (value : Option StringOrSecret) :
    AgentState :=
  match value with
  | some v => addEnv st name v
  | none => st

/-- `createEnvPrefix` from `src/lib/slashid-agent.ts` (lines 196-200):
increments the per-kind counter and renders `<kind>_<n>_`. -/
def createEnvPfx (st : AgentState) (kind : String) : String × AgentState :=
  let count := (alGet st.envPrefixCounts kind).getD 0
  (kind ++ "_" ++ toString (count + 1) ++ "_",
   { st with envPrefixCounts := alSet st.envPrefixCounts kind (count + 1) })

/-- Current counter of a kind (0 when never allocated). -/
def getCount (st : AgentState) (kind : String) : Nat :=
  (alGet st.envPrefixCounts kind).getD 0

/-- Initial state built by the `SlashidAgent` constructor: the three
environment variables it sets (`LOG_LEVEL`, `STORAGE_BACKEND`,
`STORAGE_STATIC_agent_instance_id`); everything else starts empty.  The
uuid-v5 `agentInstanceId` and the stack region are taken as parameters. -/
def initAgent (vpc : Vpc) (region logLevel agentInstanceId : String) : AgentState :=
  let st : AgentState :=
    { vpc := vpc, region := region, containerEnv := [],
      fetchSecretsCommands := [], peeredVpcIds := [], envPrefixCounts := [],
      peerings := [], routes := [] }
  let st := addEnv st "LOG_LEVEL" (.str logLevel)
  let st := addEnv st "STORAGE_BACKEND" (.str "static")
  addEnv st "STORAGE_STATIC_agent_instance_id" (.str agentInstanceId)

/-- Default URL for uploading snapshots (`src/lib/slashid-agent.ts` line 18). -/
def DEFAULT_UPLOAD_URL : String := "https://api.slashid.com/nhi/snapshots"

/-- Default URL for the event stream (`src/lib/slashid-agent.ts` line 19). -/
def DEFAULT_STREAM_URL : String := "https://api.slashid.com/nhi/events"

/-- `UploadConfig` from `src/lib/slashid-agent.ts` (lines 427-435). -/
structure UploadConfig where
  slashid_auth_token : StringOrSecret
  upload_url : Option String
  upload_interval : Option Nat
  max_consecutive_failures : Option Nat
  max_backoff_interval : Option Nat
deriving DecidableEq

/-- `setUploadConfig` from `src/lib/slashid-agent.ts` (lines 234-247): the
auth token (possibly a secret), the upload URL with its default, the three
optional numeric parameters only when supplied, and the output directory. -/
def setUploadConfig (st : AgentState) (envPfx : String) (config : UploadConfig) :
    AgentState :=
  let st := addEnv st (envPfx ++ "SLASHID_AUTH_TOKEN") config.slashid_auth_token
  let st := addEnv st (envPfx ++ "UPLOAD_URL")
    (.str (config.upload_url.getD DEFAULT_UPLOAD_URL))
  let st := addEnvOpt st (envPfx ++ "UPLOAD_INTERVAL")
    (config.upload_interval.map (fun n => .str (toString n)))
  let st := addEnvOpt st (envPfx ++ "MAX_CONSECUTIVE_FAILURES")
    (config.max_consecutive_failures.map (fun n => .str (toString n)))
  let st := addEnvOpt st (envPfx ++ "MAX_BACKOFF_INTERVAL")
    (config.max_backoff_interval.map (fun n => .str (toString n)))
  addEnv st (envPfx ++ "OUTPUT_DIR")
    (.str ("/tmp/slashid-agent/" ++ envPfx ++ "OUTPUT"))

/-- `PostgresAgentConfig` from `src/lib/slashid-agent.ts` (lines 437-439). -/
structure PostgresAgentConfig extends UploadConfig where
  fetch_passwords : Option Bool
deriving DecidableEq

/-- The attributes of an RDS database (`rds.DatabaseCluster`,
`rds.DatabaseInstance` or `rds.ServerlessCluster`) read by `addPostgres`:
engine type, endpoint, VPC and optional owned secret. -/
structure RdsDatabase where
  engineType : Option String
  endpointHostname : String
  endpointPort : Nat
  vpc : Vpc
  secret : Option ISecret
deriving DecidableEq

/-- `PostgresDatabaseInfo` from `src/lib/slashid-agent.ts` (lines 447-453). -/
structure PostgresDatabaseInfo where
  host : String
  port : Nat
  dbname : StringOrSecret
  credential : Credential
  use_ssl : Bool
deriving DecidableEq

/-- Argument of `addPostgres`: an RDS database (the `'vpc' in database`
branch) or caller-supplied `PostgresDatabaseInfo`. -/
inductive PgDatabase where
  | rds (r : RdsDatabase)
  | info (i : PostgresDatabaseInfo)
deriving DecidableEq

/-- Substring test on character lists, modelling JS `String.includes`. -/
def listContains (pat : List Char) (l : List Char) : Bool :=
  match l with
  | [] => pat.isEmpty
  | _ :: rest => pat.isPrefixOf l || listContains pat rest

/-- `engineType.includes('postgres')` from `addPostgres`. -/
def engineIncludesPostgres (e : String) : Bool :=
  listContains "postgres".data e.data

/-- Shared tail of `addPostgres` (`src/lib/slashid-agent.ts` lines 308-321):
renders the six connection variables, the optional `FETCH_PASSWORDS` flag
and the upload configuration under the allocated namespace. -/
def addPostgresInfo (st : AgentState) (envPfx : String) (db : PostgresDatabaseInfo)
    (agentConfig : PostgresAgentConfig) : AgentState :=
  let st := addEnv st (envPfx ++ "HOST") (.str db.host)
  let st := addEnv st (envPfx ++ "PORT") (.str (toString db.port))
  let st := addEnv st (envPfx ++ "DBNAME") db.dbname
  let st := addEnv st (envPfx ++ "USERNAME") db.credential.username
  let st := addEnv st (envPfx ++ "PASSWORD") db.credential.password
  let st := addEnv st (envPfx ++ "USE_SSL") (.str (toString db.use_ssl))
  let st := addEnvOpt st (envPfx ++ "FETCH_PASSWORDS")
    ((agentConfig.fetch_passwords).map (fun b => .str (toString b)))
  setUploadConfig st envPfx agentConfig.toUploadConfig

/-- `addPostgres` from `src/lib/slashid-agent.ts` (lines 270-322).  The
namespace is allocated first; an RDS database is checked for a PostgreSQL
engine (`engineType &&` is JS-falsy on the empty string), peered via
`linkVpc`, and its connection coordinates and credentials are derived from
its endpoint and owned secret; a thrown error is returned together with the
state reached at the throw. -/
def addPostgres (st : AgentState) (database : PgDatabase)
    (agentConfig : PostgresAgentConfig) : AgentState × Option String :=
  let p := createEnvPfx st "PSQL"
  let envPfx := p.1
  let st := p.2
  match database with
  | .info i => (addPostgresInfo st envPfx i agentConfig, none)
  | .rds r =>
    let bad := match r.engineType with
      | some e => (¬ (e = "") : Bool) && ¬ engineIncludesPostgres e
      | none => false
    if bad then
      (st, some ("addPostgres requires a PostgreSQL database, got: " ++
        (r.engineType.getD "")))
    else
      let st := linkVpc st r.vpc
      match r.secret with
      | none => (st, some "RDS database must have a secret for credentials")
      | some secret =>
        let db : PostgresDatabaseInfo :=
          { host := r.endpointHostname,
            port := r.endpointPort,
            dbname := .secretField secret "dbname",
            credential := credentialFromSecret secret "username" "password",
            use_ssl := true }
        (addPostgresInfo st envPfx db agentConfig, none)

/-- `DomainControler` from `src/lib/slashid-agent.ts` (lines 457-461). -/
structure DomainControler where
  host : String
  port : Nat
  use_ssl : Bool
deriving DecidableEq

/-- `ActiveDirectoryInfo` from `src/lib/slashid-agent.ts` (lines 462-466). -/
structure ActiveDirectoryInfo where
  domain : String
  domainControllers : List DomainControler
  dnsServers : List String
deriving DecidableEq

/-- `ActiveDirectorySnapshotCollectorConfig` (lines 468-472). -/
structure ActiveDirectorySnapshotCollectorConfig extends UploadConfig where
  credential : Credential
  collect_adcs : Option Bool
  collection_method : Option String
deriving DecidableEq

/-- `WMiCollectorConfig` (lines 474-500); the `namespace` field is renamed
`wmiNamespace` because `namespace` is a Lean keyword. -/
structure WMiCollectorConfig where
  slashid_auth_token : StringOrSecret
  credential : Credential
  wmiNamespace : Option String
  hashes : Option String
  kerberos_auth : Option Bool
  aes_key : Option StringOrSecret
  rpc_auth_level : Option String
  timeout : Option Nat
  events_pull_interval : Option Nat
  max_events_per_pull : Option Nat
  stream_url : Option String
  connection_error_delay : Option Nat
deriving DecidableEq

/-- `ActiveDirectoryAgentConfig` (lines 502-505). -/
structure ActiveDirectoryAgentConfig where
  snapshot : Option ActiveDirectorySnapshotCollectorConfig
  wmi : Option WMiCollectorConfig
deriving DecidableEq

/-- The attributes of an AWS Managed Microsoft AD (`CfnMicrosoftAD`) read
by `addActiveDirectory`. -/
structure CfnMicrosoftAD where
  name : String
  attrDnsIpAddresses : List String
deriving DecidableEq

/-- Argument of `addActiveDirectory`. -/
inductive AdTarget where
  | cfn (ad : CfnMicrosoftAD)
  | info (i : ActiveDirectoryInfo)
deriving DecidableEq

/-- The `attrDnsIpAddresses` conversion at the top of `addActiveDirectory`
(lines 333-348): AWS Managed AD always has exactly 2 domain controllers,
which double as DNS servers. -/
def adToInfo : AdTarget → ActiveDirectoryInfo
  | .cfn ad =>
    let dc0 := ad.attrDnsIpAddresses.getD 0 ""
    let dc1 := ad.attrDnsIpAddresses.getD 1 ""
    { domain := ad.name,
      domainControllers :=
        [{ host := dc0, port := 389, use_ssl := false },
         { host := dc1, port := 389, use_ssl := false }],
      dnsServers := [dc0, dc1] }
  | .info i => i

/-- The snapshot block of `addActiveDirectory` (lines 350-374): one
`AD_SNAPSHOT` namespace, configured against `domainControllers[0]`. -/
def addAdSnapshot (st : AgentState) (ad : ActiveDirectoryInfo)
    (snapshotConfig : ActiveDirectorySnapshotCollectorConfig) : AgentState :=
  let p := createEnvPfx st "AD_SNAPSHOT"
  let envPfx := p.1
  let st := p.2
  let defaultDomainController := ad.domainControllers.headD ⟨"", 0, false⟩
  let st := addEnv st (envPfx ++ "DOMAIN") (.str ad.domain)
  let st := addEnv st (envPfx ++ "TARGET_DC") (.str defaultDomainController.host)
  let st := addEnv st (envPfx ++ "LDAPS") (.str (toString defaultDomainController.use_ssl))
  let st := addEnv st (envPfx ++ "LDAP_PORT") (.str (toString defaultDomainController.port))
  let st := addEnv st (envPfx ++ "USERNAME") snapshotConfig.credential.username
  let st := addEnv st (envPfx ++ "PASSWORD") snapshotConfig.credential.password
  let st := addEnvOpt st (envPfx ++ "FQDN_RESOLVER")
    ((ad.dnsServers.head?).map (fun d => .str d))
  let st := addEnvOpt st (envPfx ++ "COLLECT_ADCS")
    ((snapshotConfig.collect_adcs).map (fun b => .str (toString b)))
  let st := addEnvOpt st (envPfx ++ "COLLECTION_METHOD")
    ((snapshotConfig.collection_method).map (fun m => .str m))
  let st := addEnv st (envPfx ++ "RUSTHOUND_PATH") (.str "/usr/local/bin/rusthound-ce")
  setUploadConfig st envPfx snapshotConfig.toUploadConfig

/-- One iteration of the WMI loop of `addActiveDirectory` (lines 377-416):
a fresh `WMI` namespace configured against one domain controller. -/
def addWmiDc (domain : String) (wmiConfig : WMiCollectorConfig)
    (st : AgentState) (dc : DomainControler) : AgentState :=
  let p := createEnvPfx st "WMI"
  let envPfx := p.1
  let st := p.2
  let st := addEnv st (envPfx ++ "DOMAIN") (.str domain)
  let st := addEnv st (envPfx ++ "TARGET_DC") (.str dc.host)
  let st := addEnv st (envPfx ++ "USERNAME") wmiConfig.credential.username
  let st := addEnv st (envPfx ++ "PASSWORD") wmiConfig.credential.password
  let st := addEnv st (envPfx ++ "SLASHID_AUTH_TOKEN") wmiConfig.slashid_auth_token
  let st := addEnv st (envPfx ++ "STREAM_URL")
    (.str (wmiConfig.stream_url.getD DEFAULT_STREAM_URL))
  let st := addEnvOpt st (envPfx ++ "NAMESPACE")
    ((wmiConfig.wmiNamespace).map (fun v => .str v))
  let st := addEnvOpt st (envPfx ++ "HASHES")
    ((wmiConfig.hashes).map (fun v => .str v))
  let st := addEnvOpt st (envPfx ++ "KERBEROS_AUTH")
    ((wmiConfig.kerberos_auth).map (fun b => .str (toString b)))
  let st := addEnvOpt st (envPfx ++ "AES_KEY") wmiConfig.aes_key
  let st := addEnvOpt st (envPfx ++ "RPC_AUTH_LEVEL")
    ((wmiConfig.rpc_auth_level).map (fun v => .str v))
  let st := addEnvOpt st (envPfx ++ "TIMEOUT")
    ((wmiConfig.timeout).map (fun n => .str (toString n)))
  let st := addEnvOpt st (envPfx ++ "EVENTS_PULL_INTERVAL")
    ((wmiConfig.events_pull_interval).map (fun n => .str (toString n)))
  let st := addEnvOpt st (envPfx ++ "MAX_EVENTS_PER_PULL")
    ((wmiConfig.max_events_per_pull).map (fun n => .str (toString n)))
  addEnvOpt st (envPfx ++ "CONNECTION_ERROR_DELAY")
    ((wmiConfig.connection_error_delay).map (fun n => .str (toString n)))

/-- `addActiveDirectory` from `src/lib/slashid-agent.ts` (lines 332-420). -/
def addActiveDirectory (st : AgentState) (activeDirectory : AdTarget)
    (agentConfig : ActiveDirectoryAgentConfig) : AgentState :=
  let ad := adToInfo activeDirectory
  let st := match agentConfig.snapshot with
    | some sc => addAdSnapshot st ad sc
    | none => st
  match agentConfig.wmi with
  | some w => ad.domainControllers.foldl (addWmiDc ad.domain w) st
  | none => st

/-- One public mutating call on a `SlashidAgent` instance. -/
inductive AgentOp where
  | link (vpc : Vpc)
  | postgres (db : PgDatabase) (cfg : PostgresAgentConfig)
  | activeDirectory (ad : AdTarget) (cfg : ActiveDirectoryAgentConfig)
deriving DecidableEq

/-- Apply one call to the state.  A thrown error does not roll back the
mutations made before the throw, so the state component of `addPostgres` is
kept either way. -/
def applyOp (st : AgentState) : AgentOp → AgentState
  | .link v => linkVpc st v
  | .postgres db cfg => (addPostgres st db cfg).1
  | .activeDirectory ad cfg => addActiveDirectory st ad cfg

/-- The lines of the start script built by `buildStartScript`
(`src/lib/slashid-agent.ts` lines 134-145). -/
def scriptLines (st : AgentState) : List String :=
  ["#!/bin/bash", "set -e", "cd /opt", "> /run/slashid-agent-secrets.env"] ++
    st.fetchSecretsCommands ++
    ["docker compose up -d --pull always", "docker image prune -f"]

/-- `buildStartScript`: the lines joined by newlines. -/
def buildStartScript (st : AgentState) : String :=
  String.intercalate "\n" (scriptLines st)

/-- The environment value `addEnv` stores for a given `StringOrSecret`:
the literal itself, or the deterministic placeholder encoding the secret
name (and field). -/
def renderedValue (v : StringOrSecret) : String :=
  match v with
  | .str s => s
  | .secret s => "secret(" ++ s.secretName ++ ")"
  | .secretField s field =>
    if field = "" then "secret(" ++ s.secretName ++ ")"
    else "secret(" ++ s.secretName ++ ")." ++ field

/-- The fetch commands `addEnv` appends for a given `StringOrSecret`:
none for a literal, one lookup (plus `jq` extraction for a field) for a
secret reference. -/
def fetchCmdsFor (region name : String) (v : StringOrSecret) : List String :=
  match v with
  | .str _ => []
  | .secret s =>
    ["echo \"" ++ name ++ "=$(" ++ fetchCmdFor region s ++
      ")\" >> /run/slashid-agent-secrets.env"]
  | .secretField s field =>
    if field = "" then
      ["echo \"" ++ name ++ "=$(" ++ fetchCmdFor region s ++
        ")\" >> /run/slashid-agent-secrets.env"]
    else
      ["echo \"" ++ name ++ "=$(" ++ fetchCmdFor region s ++
        " | jq -r \x27." ++ field ++ "\x27)\" >> /run/slashid-agent-secrets.env"]

@[simp] theorem addEnv_region (st : AgentState) (n : String) (v : StringOrSecret) :
    (addEnv st n v).region = st.region := by
  cases v with
  | str s => rfl
  | secret s => rfl
  | secretField s f => by_cases hf : f = "" <;> simp [addEnv, hf]

@[simp] theorem addEnv_vpc (st : AgentState) (n : String) (v : StringOrSecret) :
    (addEnv st n v).vpc = st.vpc := by
  cases v with
  | str s => rfl
  | secret s => rfl
  | secretField s f => by_cases hf : f = "" <;> simp [addEnv, hf]

@[simp] theorem addEnv_peeredVpcIds (st : AgentState) (n : String) (v : StringOrSecret) :
    (addEnv st n v).peeredVpcIds = st.peeredVpcIds := by
  cases v with
  | str s => rfl
  | secret s => rfl
  | secretField s f => by_cases hf : f = "" <;> simp [addEnv, hf]

@[simp] theorem addEnv_peerings (st : AgentState) (n : String) (v : StringOrSecret) :
    (addEnv st n v).peerings = st.peerings := by
  cases v with
  | str s => rfl
  | secret s => rfl
  | secretField s f => by_cases hf : f = "" <;> simp [addEnv, hf]

@[simp] theorem addEnv_routes (st : AgentState) (n : String) (v : StringOrSecret) :
    (addEnv st n v).routes = st.routes := by
  cases v with
  | str s => rfl
  | secret s => rfl
  | secretField s f => by_cases hf : f = "" <;> simp [addEnv, hf]

@[simp] theorem addEnv_envPrefixCounts (st : AgentState) (n : String) (v : StringOrSecret) :
    (addEnv st n v).envPrefixCounts = st.envPrefixCounts := by
  cases v with
  | str s => rfl
  | secret s => rfl
  | secretField s f => by_cases hf : f = "" <;> simp [addEnv, hf]

@[simp] theorem addEnv_fetchSecretsCommands (st : AgentState) (n : String)
    (v : StringOrSecret) :
    (addEnv st n v).fetchSecretsCommands =
      st.fetchSecretsCommands ++ fetchCmdsFor st.region n v := by
  cases v with
  | str s => simp [addEnv, fetchCmdsFor]
  | secret s => simp [addEnv, fetchCmdsFor]
  | secretField s f => by_cases hf : f = "" <;> simp [addEnv, fetchCmdsFor, hf]

@[simp] theorem addEnv_containerEnv_get (st : AgentState) (n : String)
    (v : StringOrSecret) (n' : String) :
    alGet (addEnv st n v).containerEnv n' =
      if n = n' then some (renderedValue v) else alGet st.containerEnv n' := by
  cases v with
  | str s => simp [addEnv, renderedValue, alGet_alSet]
  | secret s => simp [addEnv, renderedValue, alGet_alSet]
  | secretField s f =>
    by_cases hf : f = "" <;> simp [addEnv, renderedValue, alGet_alSet, hf]

@[simp] theorem addEnvOpt_none (st : AgentState) (n : String) :
    addEnvOpt st n none = st := rfl

@[simp] theorem addEnvOpt_some (st : AgentState) (n : String) (v : StringOrSecret) :
    addEnvOpt st n (some v) = addEnv st n v := rfl

@[simp] theorem addEnvOpt_region (st : AgentState) (n : String)
    (o : Option StringOrSecret) : (addEnvOpt st n o).region = st.region := by
  cases o <;> simp

@[simp] theorem addEnvOpt_vpc (st : AgentState) (n : String)
    (o : Option StringOrSecret) : (addEnvOpt st n o).vpc = st.vpc := by
  cases o <;> simp

@[simp] theorem addEnvOpt_peeredVpcIds (st : AgentState) (n : String)
    (o : Option StringOrSecret) : (addEnvOpt st n o).peeredVpcIds = st.peeredVpcIds := by
  cases o <;> simp

@[simp] theorem addEnvOpt_peerings (st : AgentState) (n : String)
    (o : Option StringOrSecret) : (addEnvOpt st n o).peerings = st.peerings := by
  cases o <;> simp

@[simp] theorem addEnvOpt_routes (st : AgentState) (n : String)
    (o : Option StringOrSecret) : (addEnvOpt st n o).routes = st.routes := by
  cases o <;> simp

@[simp] theorem addEnvOpt_envPrefixCounts (st : AgentState) (n : String)
    (o : Option StringOrSecret) : (addEnvOpt st n o).envPrefixCounts = st.envPrefixCounts := by
  cases o <;> simp

theorem addEnvOpt_containerEnv_get_ne (st : AgentState) (n : String)
    (o : Option StringOrSecret) (n' : String) (h : ¬ n = n') :
    alGet (addEnvOpt st n o).containerEnv n' = alGet st.containerEnv n' := by
  cases o <;> simp [h]

theorem addEnvOpt_fetch_exists (st : AgentState) (n : String)
    (o : Option StringOrSecret) :
    ∃ l, (addEnvOpt st n o).fetchSecretsCommands = st.fetchSecretsCommands ++ l := by
  cases o with
  | none => exact ⟨[], by simp⟩
  | some v => exact ⟨fetchCmdsFor st.region n v, by simp⟩

@[simp] theorem createEnvPfx_region (st : AgentState) (k : String) :
    (createEnvPfx st k).2.region = st.region := rfl

@[simp] theorem createEnvPfx_vpc (st : AgentState) (k : String) :
    (createEnvPfx st k).2.vpc = st.vpc := rfl

@[simp] theorem createEnvPfx_containerEnv (st : AgentState) (k : String) :
    (createEnvPfx st k).2.containerEnv = st.containerEnv := rfl

@[simp] theorem createEnvPfx_fetch (st : AgentState) (k : String) :
    (createEnvPfx st k).2.fetchSecretsCommands = st.fetchSecretsCommands := rfl

@[simp] theorem createEnvPfx_peeredVpcIds (st : AgentState) (k : String) :
    (createEnvPfx st k).2.peeredVpcIds = st.peeredVpcIds := rfl

@[simp] theorem createEnvPfx_peerings (st : AgentState) (k : String) :
    (createEnvPfx st k).2.peerings = st.peerings := rfl

@[simp] theorem createEnvPfx_routes (st : AgentState) (k : String) :
    (createEnvPfx st k).2.routes = st.routes := rfl

@[simp] theorem createEnvPfx_counts (st : AgentState) (k : String) :
    (createEnvPfx st k).2.envPrefixCounts =
      alSet st.envPrefixCounts k (getCount st k + 1) := rfl

@[simp] theorem createEnvPfx_fst (st : AgentState) (k : String) :
    (createEnvPfx st k).1 = k ++ "_" ++ toString (getCount st k + 1) ++ "_" := rfl

@[simp] theorem linkVpc_containerEnv (st : AgentState) (v : Vpc) :
    (linkVpc st v).containerEnv = st.containerEnv := rfl

@[simp] theorem linkVpc_fetch (st : AgentState) (v : Vpc) :
    (linkVpc st v).fetchSecretsCommands = st.fetchSecretsCommands := rfl

@[simp] theorem linkVpc_counts (st : AgentState) (v : Vpc) :
    (linkVpc st v).envPrefixCounts = st.envPrefixCounts := rfl

@[simp] theorem linkVpc_region (st : AgentState) (v : Vpc) :
    (linkVpc st v).region = st.region := rfl

@[simp] theorem linkVpc_vpc (st : AgentState) (v : Vpc) :
    (linkVpc st v).vpc = st.vpc := rfl

@[simp] theorem setUploadConfig_region (st : AgentState) (p : String) (c : UploadConfig) :
    (setUploadConfig st p c).region = st.region := by simp [setUploadConfig]

@[simp] theorem setUploadConfig_vpc (st : AgentState) (p : String) (c : UploadConfig) :
    (setUploadConfig st p c).vpc = st.vpc := by simp [setUploadConfig]

@[simp] theorem setUploadConfig_peeredVpcIds (st : AgentState) (p : String)
    (c : UploadConfig) : (setUploadConfig st p c).peeredVpcIds = st.peeredVpcIds := by
  simp [setUploadConfig]

@[simp] theorem setUploadConfig_peerings (st : AgentState) (p : String)
    (c : UploadConfig) : (setUploadConfig st p c).peerings = st.peerings := by
  simp [setUploadConfig]

@[simp] theorem setUploadConfig_routes (st : AgentState) (p : String)
    (c : UploadConfig) : (setUploadConfig st p c).routes = st.routes := by
  simp [setUploadConfig]

@[simp] theorem setUploadConfig_counts (st : AgentState) (p : String)
    (c : UploadConfig) : (setUploadConfig st p c).envPrefixCounts = st.envPrefixCounts := by
  simp [setUploadConfig]

@[simp] theorem addPostgresInfo_region (st : AgentState) (p : String)
    (db : PostgresDatabaseInfo) (c : PostgresAgentConfig) :
    (addPostgresInfo st p db c).region = st.region := by simp [addPostgresInfo]

@[simp] theorem addPostgresInfo_vpc (st : AgentState) (p : String)
    (db : PostgresDatabaseInfo) (c : PostgresAgentConfig) :
    (addPostgresInfo st p db c).vpc = st.vpc := by simp [addPostgresInfo]

@[simp] theorem addPostgresInfo_peeredVpcIds (st : AgentState) (p : String)
    (db : PostgresDatabaseInfo) (c : PostgresAgentConfig) :
    (addPostgresInfo st p db c).peeredVpcIds = st.peeredVpcIds := by
  simp [addPostgresInfo]

@[simp] theorem addPostgresInfo_peerings (st : AgentState) (p : String)
    (db : PostgresDatabaseInfo) (c : PostgresAgentConfig) :
    (addPostgresInfo st p db c).peerings = st.peerings := by simp [addPostgresInfo]

@[simp] theorem addPostgresInfo_routes (st : AgentState) (p : String)
    (db : PostgresDatabaseInfo) (c : PostgresAgentConfig) :
    (addPostgresInfo st p db c).routes = st.routes := by simp [addPostgresInfo]

@[simp] theorem addPostgresInfo_counts (st : AgentState) (p : String)
    (db : PostgresDatabaseInfo) (c : PostgresAgentConfig) :
    (addPostgresInfo st p db c).envPrefixCounts = st.envPrefixCounts := by
  simp [addPostgresInfo]

@[simp] theorem addAdSnapshot_region (st : AgentState) (ad : ActiveDirectoryInfo)
    (sc : ActiveDirectorySnapshotCollectorConfig) :
    (addAdSnapshot st ad sc).region = st.region := by simp [addAdSnapshot]

@[simp] theorem addAdSnapshot_vpc (st : AgentState) (ad : ActiveDirectoryInfo)
    (sc : ActiveDirectorySnapshotCollectorConfig) :
    (addAdSnapshot st ad sc).vpc = st.vpc := by simp [addAdSnapshot]

@[simp] theorem addAdSnapshot_peeredVpcIds (st : AgentState) (ad : ActiveDirectoryInfo)
    (sc : ActiveDirectorySnapshotCollectorConfig) :
    (addAdSnapshot st ad sc).peeredVpcIds = st.peeredVpcIds := by simp [addAdSnapshot]

@[simp] theorem addAdSnapshot_peerings (st : AgentState) (ad : ActiveDirectoryInfo)
    (sc : ActiveDirectorySnapshotCollectorConfig) :
    (addAdSnapshot st ad sc).peerings = st.peerings := by simp [addAdSnapshot]

@[simp] theorem addAdSnapshot_routes (st : AgentState) (ad : ActiveDirectoryInfo)
    (sc : ActiveDirectorySnapshotCollectorConfig) :
    (addAdSnapshot st ad sc).routes = st.routes := by simp [addAdSnapshot]

@[simp] theorem addAdSnapshot_counts (st : AgentState) (ad : ActiveDirectoryInfo)
    (sc : ActiveDirectorySnapshotCollectorConfig) :
    (addAdSnapshot st ad sc).envPrefixCounts =
      alSet st.envPrefixCounts "AD_SNAPSHOT" (getCount st "AD_SNAPSHOT" + 1) := by
  simp [addAdSnapshot]

@[simp] theorem addWmiDc_region (d : String) (w : WMiCollectorConfig)
    (st : AgentState) (dc : DomainControler) :
    (addWmiDc d w st dc).region = st.region := by simp [addWmiDc]

@[simp] theorem addWmiDc_vpc (d : String) (w : WMiCollectorConfig)
    (st : AgentState) (dc : DomainControler) :
    (addWmiDc d w st dc).vpc = st.vpc := by simp [addWmiDc]

@[simp] theorem addWmiDc_peeredVpcIds (d : String) (w : WMiCollectorConfig)
    (st : AgentState) (dc : DomainControler) :
    (addWmiDc d w st dc).peeredVpcIds = st.peeredVpcIds := by simp [addWmiDc]

@[simp] theorem addWmiDc_peerings (d : String) (w : WMiCollectorConfig)
    (st : AgentState) (dc : DomainControler) :
    (addWmiDc d w st dc).peerings = st.peerings := by simp [addWmiDc]

@[simp] theorem addWmiDc_routes (d : String) (w : WMiCollectorConfig)
    (st : AgentState) (dc : DomainControler) :
    (addWmiDc d w st dc).routes = st.routes := by simp [addWmiDc]

@[simp] theorem addWmiDc_counts (d : String) (w : WMiCollectorConfig)
    (st : AgentState) (dc : DomainControler) :
    (addWmiDc d w st dc).envPrefixCounts =
      alSet st.envPrefixCounts "WMI" (getCount st "WMI" + 1) := by
  simp [addWmiDc]

/-- The decimal digit list of a natural number (most significant first),
the mathematical counterpart of `Nat.repr`. -/
def decDigits (n : Nat) : List Char :=
  if _ : n < 10 then [Nat.digitChar n]
  else decDigits (n / 10) ++ [Nat.digitChar (n % 10)]
termination_by n
decreasing_by exact Nat.div_lt_self (by omega) (by omega)

theorem toDigitsCore_eq_decDigits (fuel : Nat) :
    ∀ (n : Nat) (ds : List Char), n < fuel →
      Nat.toDigitsCore 10 fuel n ds = decDigits n ++ ds := by
  induction fuel with
  | zero => intro n ds h; omega
  | succ fuel ih =>
    intro n ds h
    simp only [Nat.toDigitsCore]
    by_cases h10 : n / 10 = 0
    · have hn : n < 10 := by omega
      rw [decDigits]
      simp [h10, hn, Nat.mod_eq_of_lt hn]
    · have hn : ¬ n < 10 := by omega
      rw [if_neg h10, ih (n / 10) (Nat.digitChar (n % 10) :: ds) (by omega)]
      conv_rhs => rw [decDigits]
      simp [hn]

theorem repr_data_eq_decDigits (n : Nat) : (Nat.repr n).data = decDigits n := by
  unfold Nat.repr Nat.toDigits
  rw [toDigitsCore_eq_decDigits (n + 1) n [] (by omega)]
  simp [List.asString]

/-- Decimal decoding, inverse of `decDigits`. -/
def decodeDigits (l : List Char) : Nat :=
  l.foldl (fun a c => a * 10 + (c.toNat - 48)) 0

theorem digitChar_toNat : ∀ m, m < 10 → (Nat.digitChar m).toNat - 48 = m := by decide

theorem digitChar_isDigit : ∀ m, m < 10 → (Nat.digitChar m).isDigit = true := by decide

theorem decodeDigits_decDigits (n : Nat) : decodeDigits (decDigits n) = n := by
  induction n using Nat.strong_induction_on with
  | _ n ih =>
    rw [decDigits]
    by_cases h : n < 10
    · simp only [h, dite_true, decodeDigits, List.foldl_cons, List.foldl_nil]
      rw [Nat.zero_mul, Nat.zero_add, digitChar_toNat n h]
    · have hlt : n / 10 < n := Nat.div_lt_self (by omega) (by omega)
      simp only [h, dite_false, decodeDigits, List.foldl_append, List.foldl_cons,
        List.foldl_nil]
      have hrec := ih (n / 10) hlt
      simp only [decodeDigits] at hrec
      rw [hrec, digitChar_toNat (n % 10) (by omega)]
      omega

theorem decDigits_inj {a b : Nat} (h : decDigits a = decDigits b) : a = b := by
  have := congrArg decodeDigits h
  rwa [decodeDigits_decDigits, decodeDigits_decDigits] at this

theorem decDigits_all_digits (n : Nat) : ∀ c ∈ decDigits n, c.isDigit = true := by
  induction n using Nat.strong_induction_on with
  | _ n ih =>
    rw [decDigits]
    by_cases h : n < 10
    · simp only [h, dite_true, List.mem_singleton]
      intro c hc; subst hc; exact digitChar_isDigit n h
    · have hlt : n / 10 < n := Nat.div_lt_self (by omega) (by omega)
      simp only [h, dite_false, List.mem_append, List.mem_singleton]
      intro c hc
      rcases hc with hc | hc
      · exact ih (n / 10) hlt c hc
      · subst hc; exact digitChar_isDigit (n % 10) (by omega)

theorem takeWhile_append_stop {p : Char → Bool} :
    ∀ (l : List Char) (c : Char) (r : List Char), (∀ x ∈ l, p x = true) → p c = false →
      (l ++ c :: r).takeWhile p = l ∧ (l ++ c :: r).dropWhile p = c :: r := by
  intro l
  induction l with
  | nil =>
    intro c r _ hc
    simp [List.takeWhile_cons, List.dropWhile_cons, hc]
  | cons x xs ihx =>
    intro c r hl hc
    have hx : p x = true := hl x (List.mem_cons_self x xs)
    have := ihx c r (fun y hy => hl y (List.mem_cons_of_mem x hy)) hc
    simp [List.takeWhile_cons, List.dropWhile_cons, hx, this.1, this.2]

theorem digits_underscore_inj {a b : Nat} {r1 r2 : List Char}
    (h : decDigits a ++ '_' :: r1 = decDigits b ++ '_' :: r2) : a = b ∧ r1 = r2 := by
  have hu : Char.isDigit '_' = false := by decide
  have t1 := takeWhile_append_stop (decDigits a) '_' r1 (decDigits_all_digits a) hu
  have t2 := takeWhile_append_stop (decDigits b) '_' r2 (decDigits_all_digits b) hu
  have hab : decDigits a = decDigits b := by
    rw [← t1.1, ← t2.1, h]
  refine ⟨decDigits_inj hab, ?_⟩
  have hd : ('_' :: r1 : List Char) = '_' :: r2 := by
    rw [← t1.2, ← t2.2, h]
  exact (List.cons.injEq _ _ _ _ ▸ hd).2

theorem string_append_right_inj (p a b : String) : p ++ a = p ++ b ↔ a = b := by
  constructor
  · intro h
    have hd := congrArg String.data h
    simp only [String.data_append] at hd
    exact String.ext (List.append_cancel_left hd)
  · intro h; rw [h]

/-- Two generated variable names with the same kind coincide only when both
the ordinal and the field suffix coincide: the decimal ordinal contains no
underscore, so it is delimited by the underscore that follows it. -/
theorem kindName_inj (k : String) (m1 m2 : Nat) (F1 F2 : String)
    (h : (k ++ "_" ++ toString m1 ++ "_") ++ F1 = (k ++ "_" ++ toString m2 ++ "_") ++ F2) :
    m1 = m2 ∧ F1 = F2 := by
  have hd := congrArg String.data h
  simp only [String.data_append, List.append_assoc] at hd
  have h2 := List.append_cancel_left hd
  have h3 := List.append_cancel_left h2
  have hrepr : ∀ m : Nat, (toString m).data = decDigits m := fun m =>
    repr_data_eq_decDigits m
  rw [hrepr m1, hrepr m2] at h3
  simp only [List.singleton_append] at h3
  obtain ⟨hm, hf⟩ := digits_underscore_inj h3
  exact ⟨hm, String.ext hf⟩

/-- Names generated under the `AD_SNAPSHOT` kind never collide with names
generated under the `WMI` kind. -/
theorem adsnap_name_ne_wmi (m1 m2 : Nat) (F1 F2 : String) :
    ¬ (("AD_SNAPSHOT" ++ "_" ++ toString m1 ++ "_") ++ F1 =
        ("WMI" ++ "_" ++ toString m2 ++ "_") ++ F2) := by
  intro h
  have hd := congrArg String.data h
  simp only [String.data_append, List.append_assoc] at hd
  simp only [List.cons_append, List.cons.injEq] at hd
  exact absurd hd.1 (by decide)

attribute [simp] string_append_right_inj

@[simp] theorem fetchCmdsFor_str (r n s : String) : fetchCmdsFor r n (.str s) = [] := rfl

/-- Whether a `StringOrSecret` is a secret reference (and hence emits a
boot-time fetch command). -/
def isSecretRef : StringOrSecret → Bool
  | .str _ => false
  | .secret _ => true
  | .secretField _ _ => true

theorem fetchCmdsFor_length (r n : String) (v : StringOrSecret) :
    (fetchCmdsFor r n v).length = if isSecretRef v then 1 else 0 := by
  cases v with
  | str s => rfl
  | secret s => rfl
  | secretField s f => by_cases hf : f = "" <;> simp [fetchCmdsFor, isSecretRef, hf]

/-- `b`'s command list extends `a`'s: commands are append-only. -/
def FetchExt (a b : AgentState) : Prop :=
  ∃ l, b.fetchSecretsCommands = a.fetchSecretsCommands ++ l

theorem fetchExt_refl (a : AgentState) : FetchExt a a := ⟨[], by simp⟩

theorem fetchExt_trans {a b c : AgentState} (h1 : FetchExt a b) (h2 : FetchExt b c) :
    FetchExt a c := by
  obtain ⟨l1, e1⟩ := h1
  obtain ⟨l2, e2⟩ := h2
  exact ⟨l1 ++ l2, by rw [e2, e1, List.append_assoc]⟩

theorem fetchExt_of_fetch_eq {a b : AgentState}
    (h : b.fetchSecretsCommands = a.fetchSecretsCommands) : FetchExt a b :=
  ⟨[], by simp [h]⟩

theorem fetchExt_addEnv (st : AgentState) (n : String) (v : StringOrSecret) :
    FetchExt st (addEnv st n v) := ⟨fetchCmdsFor st.region n v, by simp⟩

theorem fetchExt_addEnvOpt (st : AgentState) (n : String) (o : Option StringOrSecret) :
    FetchExt st (addEnvOpt st n o) := by
  cases o with
  | none => exact fetchExt_refl st
  | some v => exact fetchExt_addEnv st n v

theorem fetchExt_setUploadConfig (st : AgentState) (p : String) (c : UploadConfig) :
    FetchExt st (setUploadConfig st p c) := by
  simp only [setUploadConfig]
  apply fetchExt_trans _ (fetchExt_addEnv _ _ _)
  apply fetchExt_trans _ (fetchExt_addEnvOpt _ _ _)
  apply fetchExt_trans _ (fetchExt_addEnvOpt _ _ _)
  apply fetchExt_trans _ (fetchExt_addEnvOpt _ _ _)
  apply fetchExt_trans _ (fetchExt_addEnv _ _ _)
  exact fetchExt_addEnv _ _ _

theorem fetchExt_addPostgresInfo (st : AgentState) (p : String)
    (db : PostgresDatabaseInfo) (cfg : PostgresAgentConfig) :
    FetchExt st (addPostgresInfo st p db cfg) := by
  simp only [addPostgresInfo]
  apply fetchExt_trans _ (fetchExt_setUploadConfig _ _ _)
  apply fetchExt_trans _ (fetchExt_addEnvOpt _ _ _)
  apply fetchExt_trans _ (fetchExt_addEnv _ _ _)
  apply fetchExt_trans _ (fetchExt_addEnv _ _ _)
  apply fetchExt_trans _ (fetchExt_addEnv _ _ _)
  apply fetchExt_trans _ (fetchExt_addEnv _ _ _)
  apply fetchExt_trans _ (fetchExt_addEnv _ _ _)
  exact fetchExt_addEnv _ _ _

theorem fetchExt_createEnvPfx (st : AgentState) (k : String) :
    FetchExt st (createEnvPfx st k).2 := fetchExt_of_fetch_eq rfl

theorem fetchExt_linkVpc (st : AgentState) (v : Vpc) :
    FetchExt st (linkVpc st v) := fetchExt_of_fetch_eq rfl

theorem fetchExt_addPostgres (st : AgentState) (db : PgDatabase)
    (cfg : PostgresAgentConfig) : FetchExt st (addPostgres st db cfg).1 := by
  cases db with
  | info i =>
    simp only [addPostgres]
    exact fetchExt_trans (fetchExt_createEnvPfx st "PSQL") (fetchExt_addPostgresInfo _ _ _ _)
  | rds r =>
    simp only [addPostgres]
    split
    · exact fetchExt_createEnvPfx st "PSQL"
    · split
      · exact fetchExt_trans (fetchExt_createEnvPfx st "PSQL") (fetchExt_linkVpc _ _)
      · apply fetchExt_trans (fetchExt_createEnvPfx st "PSQL")
        exact fetchExt_trans (fetchExt_linkVpc _ _) (fetchExt_addPostgresInfo _ _ _ _)

theorem fetchExt_addAdSnapshot (st : AgentState) (ad : ActiveDirectoryInfo)
    (sc : ActiveDirectorySnapshotCollectorConfig) :
    FetchExt st (addAdSnapshot st ad sc) := by
  simp only [addAdSnapshot]
  apply fetchExt_trans (fetchExt_createEnvPfx st "AD_SNAPSHOT")
  apply fetchExt_trans _ (fetchExt_setUploadConfig _ _ _)
  apply fetchExt_trans _ (fetchExt_addEnv _ _ _)
  apply fetchExt_trans _ (fetchExt_addEnvOpt _ _ _)
  apply fetchExt_trans _ (fetchExt_addEnvOpt _ _ _)
  apply fetchExt_trans _ (fetchExt_addEnvOpt _ _ _)
  apply fetchExt_trans _ (fetchExt_addEnv _ _ _)
  apply fetchExt_trans _ (fetchExt_addEnv _ _ _)
  apply fetchExt_trans _ (fetchExt_addEnv _ _ _)
  apply fetchExt_trans _ (fetchExt_addEnv _ _ _)
  apply fetchExt_trans _ (fetchExt_addEnv _ _ _)
  exact fetchExt_addEnv _ _ _

theorem fetchExt_addWmiDc (d : String) (w : WMiCollectorConfig) (st : AgentState)
    (dc : DomainControler) : FetchExt st (addWmiDc d w st dc) := by
  simp only [addWmiDc]
  apply fetchExt_trans (fetchExt_createEnvPfx st "WMI")
  apply fetchExt_trans _ (fetchExt_addEnvOpt _ _ _)
  apply fetchExt_trans _ (fetchExt_addEnvOpt _ _ _)
  apply fetchExt_trans _ (fetchExt_addEnvOpt _ _ _)
  apply fetchExt_trans _ (fetchExt_addEnvOpt _ _ _)
  apply fetchExt_trans _ (fetchExt_addEnvOpt _ _ _)
  apply fetchExt_trans _ (fetchExt_addEnvOpt _ _ _)
  apply fetchExt_trans _ (fetchExt_addEnvOpt _ _ _)
  apply fetchExt_trans _ (fetchExt_addEnvOpt _ _ _)
  apply fetchExt_trans _ (fetchExt_addEnvOpt _ _ _)
  apply fetchExt_trans _ (fetchExt_addEnv _ _ _)
  apply fetchExt_trans _ (fetchExt_addEnv _ _ _)
  apply fetchExt_trans _ (fetchExt_addEnv _ _ _)
  apply fetchExt_trans _ (fetchExt_addEnv _ _ _)
  apply fetchExt_trans _ (fetchExt_addEnv _ _ _)
  exact fetchExt_addEnv _ _ _

theorem fetchExt_wmiFold (d : String) (w : WMiCollectorConfig) :
    ∀ (dcs : List DomainControler) (st : AgentState),
      FetchExt st (dcs.foldl (addWmiDc d w) st) := by
  intro dcs
  induction dcs with
  | nil => intro st; exact fetchExt_refl st
  | cons dc rest ih =>
    intro st
    simp only [List.foldl_cons]
    exact fetchExt_trans (fetchExt_addWmiDc d w st dc) (ih _)

theorem fetchExt_addActiveDirectory (st : AgentState) (t : AdTarget)
    (cfg : ActiveDirectoryAgentConfig) : FetchExt st (addActiveDirectory st t cfg) := by
  obtain ⟨osnap, owmi⟩ := cfg
  cases osnap <;> cases owmi <;> simp only [addActiveDirectory]
  · exact fetchExt_refl st
  · exact fetchExt_wmiFold _ _ _ st
  · exact fetchExt_addAdSnapshot _ _ _
  · exact fetchExt_trans (fetchExt_addAdSnapshot _ _ _) (fetchExt_wmiFold _ _ _ _)

theorem fetchExt_applyOp (st : AgentState) (op : AgentOp) :
    FetchExt st (applyOp st op) := by
  cases op with
  | link v => exact fetchExt_linkVpc st v
  | postgres db cfg => exact fetchExt_addPostgres st db cfg
  | activeDirectory ad cfg => exact fetchExt_addActiveDirectory st ad cfg

theorem fetchExt_foldOps : ∀ (ops : List AgentOp) (st : AgentState),
    FetchExt st (ops.foldl applyOp st) := by
  intro ops
  induction ops with
  | nil => intro st; exact fetchExt_refl st
  | cons op rest ih =>
    intro st
    simp only [List.foldl_cons]
    exact fetchExt_trans (fetchExt_applyOp st op) (ih _)

/-- C9: a self-link (target network id equals the source network id) never
creates a link and changes no state: `linkVpc` returns the state unchanged,
and `ensureVpcConnectivity` returns the unchanged peered set with no
peering connection and no route, for every construct id and peered set. -/
theorem slashid_C9 (st : AgentState) (t : Vpc) (h : t.vpcId = st.vpc.vpcId) :
    linkVpc st t = st ∧
    ∀ (id : String) (peered : List String),
      ensureVpcConnectivity st.vpc t id peered = ⟨peered, [], []⟩ := by
  constructor
  · simp [linkVpc, ensureVpcConnectivity, h]
  · intro id peered
    simp [ensureVpcConnectivity, h]

/-- Witness for C9 at a concrete self-link input. -/
theorem slashid_C9_witness :
    (Vpc.mk "vpc-agent" "10.1.0.0/16" [] []).vpcId =
      (initAgent (Vpc.mk "vpc-agent" "10.0.0.0/16" ["rt1"] []) "eu-west-1" "INFO"
        "agent-id").vpc.vpcId ∧
    linkVpc (initAgent (Vpc.mk "vpc-agent" "10.0.0.0/16" ["rt1"] []) "eu-west-1" "INFO"
        "agent-id") (Vpc.mk "vpc-agent" "10.1.0.0/16" [] []) =
      initAgent (Vpc.mk "vpc-agent" "10.0.0.0/16" ["rt1"] []) "eu-west-1" "INFO"
        "agent-id" :=
  ⟨by decide,
   (slashid_C9 (initAgent (Vpc.mk "vpc-agent" "10.0.0.0/16" ["rt1"] []) "eu-west-1"
      "INFO" "agent-id") (Vpc.mk "vpc-agent" "10.1.0.0/16" [] []) (by decide)).1⟩

/-- C10: resolving the same variable name twice overwrites the mapping
entry (last write wins, no error — `addEnv` is total), while the fetch
commands of both resolutions stay in the command list, so its length counts
secret-backed resolutions, not distinct names. -/
theorem slashid_C10 (st : AgentState) (n : String) (v1 v2 : StringOrSecret) :
    alGet (addEnv (addEnv st n v1) n v2).containerEnv n = some (renderedValue v2) ∧
    (addEnv (addEnv st n v1) n v2).fetchSecretsCommands =
      st.fetchSecretsCommands ++ fetchCmdsFor st.region n v1 ++
        fetchCmdsFor st.region n v2 ∧
    (addEnv (addEnv st n v1) n v2).fetchSecretsCommands.length =
      st.fetchSecretsCommands.length + (if isSecretRef v1 then 1 else 0) +
        (if isSecretRef v2 then 1 else 0) := by
  refine ⟨by simp, by simp, ?_⟩
  simp [fetchCmdsFor_length, Nat.add_assoc]

/-- Common suffix of the two fetch commands generated for the same
`(secret, field)` reference: everything after the target variable name. -/
def fieldCmdSuffix (region : String) (s : ISecret) (field : String) : String :=
  "=$(" ++ fetchCmdFor region s ++ " | jq -r \x27." ++ field ++
    "\x27)\" >> /run/slashid-agent-secrets.env"

/-- C4: resolving the same `(secret, field)` reference twice under two
distinct variable names stores textually identical placeholder values and
appends two fetch commands that share the same prefix (`echo "`) and the
same lookup-and-extraction suffix, differing only in the variable name. -/
theorem slashid_C4 (st : AgentState) (n1 n2 : String) (s : ISecret) (f : String)
    (hf : ¬ f = "") (hn : ¬ n1 = n2) :
    alGet (addEnv (addEnv st n1 (.secretField s f)) n2 (.secretField s f)).containerEnv
        n1 = some ("secret(" ++ s.secretName ++ ")." ++ f) ∧
    alGet (addEnv (addEnv st n1 (.secretField s f)) n2 (.secretField s f)).containerEnv
        n2 = some ("secret(" ++ s.secretName ++ ")." ++ f) ∧
    (addEnv (addEnv st n1 (.secretField s f)) n2 (.secretField s f)).fetchSecretsCommands
      = st.fetchSecretsCommands ++
        ["echo \"" ++ n1 ++ fieldCmdSuffix st.region s f,
         "echo \"" ++ n2 ++ fieldCmdSuffix st.region s f] := by
  have hn' : ¬ n2 = n1 := fun e => hn e.symm
  refine ⟨?_, ?_, ?_⟩
  · simp [hn', renderedValue, hf]
  · simp [renderedValue, hf]
  · simp [fetchCmdsFor, hf, fieldCmdSuffix, String.append_assoc]

/-- Witness for C4 at a concrete secret-field reference resolved under two
distinct names. -/
theorem slashid_C4_witness :
    ¬ ("password" = "") ∧ ¬ ("AD_SNAPSHOT_1_PASSWORD" = "WMI_1_PASSWORD") ∧
    alGet (AgentState.containerEnv (addEnv
        (addEnv (initAgent (Vpc.mk "v" "c" [] []) "eu-west-1" "INFO" "iid")
          "AD_SNAPSHOT_1_PASSWORD" (.secretField (ISecret.mk "arn:sec" "ad-secret")
            "password"))
        "WMI_1_PASSWORD" (.secretField (ISecret.mk "arn:sec" "ad-secret") "password")))
        "AD_SNAPSHOT_1_PASSWORD" =
      some ("secret(" ++ "ad-secret" ++ ")." ++ "password") :=
  ⟨by decide, by decide,
   (slashid_C4 (initAgent (Vpc.mk "v" "c" [] []) "eu-west-1" "INFO" "iid")
      "AD_SNAPSHOT_1_PASSWORD" "WMI_1_PASSWORD" (ISecret.mk "arn:sec" "ad-secret")
      "password" (by decide) (by decide)).1⟩

/-- C5: for every sequence of calls from construction, the boot script is
the truncation header (ending in `> /run/slashid-agent-secrets.env`),
followed by all emitted fetch commands in emission order (the command list
of any earlier point of the call sequence is a prefix of the final one),
followed by the container-start commands. -/
theorem slashid_C5 (src : Vpc) (region logLevel aid : String)
    (ops ops2 : List AgentOp) :
    (∃ emitted,
      AgentState.fetchSecretsCommands
          (ops2.foldl applyOp (ops.foldl applyOp (initAgent src region logLevel aid))) =
        AgentState.fetchSecretsCommands
          (ops.foldl applyOp (initAgent src region logLevel aid)) ++ emitted) ∧
    scriptLines (ops2.foldl applyOp (ops.foldl applyOp (initAgent src region logLevel aid)))
      = ["#!/bin/bash", "set -e", "cd /opt", "> /run/slashid-agent-secrets.env"] ++
        AgentState.fetchSecretsCommands
          (ops2.foldl applyOp (ops.foldl applyOp (initAgent src region logLevel aid))) ++
        ["docker compose up -d --pull always", "docker image prune -f"] :=
  ⟨fetchExt_foldOps ops2 (ops.foldl applyOp (initAgent src region logLevel aid)), rfl⟩

/-- A sequence of allocator calls on one instance: each element of `kinds`
is one `createEnvPrefix` call; returns the allocated prefixes in call order
and the final state. -/
def allocSeq : AgentState → List String → List String × AgentState
  | st, [] => ([], st)
  | st, k :: ks =>
    let p := createEnvPfx st k
    let rest := allocSeq p.2 ks
    (p.1 :: rest.1, rest.2)

/-- The outputs of the calls of a given kind, in call order. -/
def kindOutputs (kinds outs : List String) (k : String) : List String :=
  ((kinds.zip outs).filter (fun p => p.1 == k)).map (fun p => p.2)

theorem kindOutputs_cons (k0 : String) (ks : List String) (o : String)
    (os : List String) (k : String) :
    kindOutputs (k0 :: ks) (o :: os) k =
      if k0 = k then o :: kindOutputs ks os k else kindOutputs ks os k := by
  by_cases h : k0 = k <;> simp [kindOutputs, List.zip_cons_cons, List.filter_cons, h]

theorem getCount_createEnvPfx_self (st : AgentState) (k : String) :
    getCount (createEnvPfx st k).2 k = getCount st k + 1 := by
  simp [getCount, alGet_alSet]

theorem getCount_createEnvPfx_ne (st : AgentState) (k k' : String) (h : ¬ k = k') :
    getCount (createEnvPfx st k).2 k' = getCount st k' := by
  simp [getCount, alGet_alSet, h]

theorem allocSeq_kindOutputs : ∀ (kinds : List String) (st : AgentState) (k : String),
    kindOutputs kinds (allocSeq st kinds).1 k =
      (List.range (kinds.count k)).map
        (fun i => k ++ "_" ++ toString (getCount st k + i + 1) ++ "_") := by
  intro kinds
  induction kinds with
  | nil => intro st k; simp [allocSeq, kindOutputs]
  | cons k0 ks ih =>
    intro st k
    simp only [allocSeq, kindOutputs_cons]
    by_cases hk : k0 = k
    · subst hk
      rw [if_pos rfl, ih (createEnvPfx st k0).2 k0, getCount_createEnvPfx_self]
      have hc : (k0 :: ks).count k0 = ks.count k0 + 1 := by
        simp [List.count_cons]
      rw [hc, List.range_succ_eq_map, List.map_cons, List.map_map]
      refine List.cons_eq_cons.mpr ⟨by simp, ?_⟩
      apply List.map_congr_left
      intro i _
      simp only [Function.comp]
      have : getCount st k0 + Nat.succ i + 1 = getCount st k0 + 1 + i + 1 := by omega
      rw [this]
    · rw [if_neg hk, ih (createEnvPfx st k0).2 k, getCount_createEnvPfx_ne st k0 k hk]
      have hc : (k0 :: ks).count k = ks.count k := by
        simp [List.count_cons, hk]
      rw [hc]

/-- C2: for every sequence of allocator calls on one instance (each
connection-add call allocates its kind through `createEnvPrefix`) and every
kind, the prefixes allocated for that kind are exactly
`<kind>_1_, <kind>_2_, ...` in call order: ordinals are consecutive from 1,
strictly increasing, never reused, regardless of interleaved kinds. -/
theorem slashid_C2 (vpc : Vpc) (region logLevel aid : String)
    (kinds : List String) (k : String) :
    kindOutputs kinds (allocSeq (initAgent vpc region logLevel aid) kinds).1 k =
      (List.range (kinds.count k)).map
        (fun i => k ++ "_" ++ toString (i + 1) ++ "_") := by
  rw [allocSeq_kindOutputs]
  have h0 : getCount (initAgent vpc region logLevel aid) k = 0 := by
    simp [initAgent, getCount, alGet]
  rw [h0]
  simp

theorem wmiFold_peeredVpcIds (d : String) (w : WMiCollectorConfig) :
    ∀ (dcs : List DomainControler) (st : AgentState),
      (dcs.foldl (addWmiDc d w) st).peeredVpcIds = st.peeredVpcIds := by
  intro dcs
  induction dcs with
  | nil => intro st; rfl
  | cons dc rest ih => intro st; simp [List.foldl_cons, ih]

theorem wmiFold_peerings (d : String) (w : WMiCollectorConfig) :
    ∀ (dcs : List DomainControler) (st : AgentState),
      (dcs.foldl (addWmiDc d w) st).peerings = st.peerings := by
  intro dcs
  induction dcs with
  | nil => intro st; rfl
  | cons dc rest ih => intro st; simp [List.foldl_cons, ih]

theorem wmiFold_routes (d : String) (w : WMiCollectorConfig) :
    ∀ (dcs : List DomainControler) (st : AgentState),
      (dcs.foldl (addWmiDc d w) st).routes = st.routes := by
  intro dcs
  induction dcs with
  | nil => intro st; rfl
  | cons dc rest ih => intro st; simp [List.foldl_cons, ih]

theorem wmiFold_vpc (d : String) (w : WMiCollectorConfig) :
    ∀ (dcs : List DomainControler) (st : AgentState),
      (dcs.foldl (addWmiDc d w) st).vpc = st.vpc := by
  intro dcs
  induction dcs with
  | nil => intro st; rfl
  | cons dc rest ih => intro st; simp [List.foldl_cons, ih]

theorem wmiFold_region (d : String) (w : WMiCollectorConfig) :
    ∀ (dcs : List DomainControler) (st : AgentState),
      (dcs.foldl (addWmiDc d w) st).region = st.region := by
  intro dcs
  induction dcs with
  | nil => intro st; rfl
  | cons dc rest ih => intro st; simp [List.foldl_cons, ih]

theorem addActiveDirectory_peeredVpcIds (st : AgentState) (t : AdTarget)
    (cfg : ActiveDirectoryAgentConfig) :
    (addActiveDirectory st t cfg).peeredVpcIds = st.peeredVpcIds := by
  obtain ⟨osnap, owmi⟩ := cfg
  cases osnap <;> cases owmi <;>
    simp [addActiveDirectory, wmiFold_peeredVpcIds]

theorem addActiveDirectory_peerings (st : AgentState) (t : AdTarget)
    (cfg : ActiveDirectoryAgentConfig) :
    (addActiveDirectory st t cfg).peerings = st.peerings := by
  obtain ⟨osnap, owmi⟩ := cfg
  cases osnap <;> cases owmi <;>
    simp [addActiveDirectory, wmiFold_peerings]

theorem addActiveDirectory_vpc (st : AgentState) (t : AdTarget)
    (cfg : ActiveDirectoryAgentConfig) :
    (addActiveDirectory st t cfg).vpc = st.vpc := by
  obtain ⟨osnap, owmi⟩ := cfg
  cases osnap <;> cases owmi <;>
    simp [addActiveDirectory, wmiFold_vpc]

/-- The link-set invariant maintained by every operation: the peered-VPC
set is duplicate-free, never contains the agent's own VPC, and holds
exactly one entry per created peering connection, keyed by target id. -/
def LinkInv (st : AgentState) : Prop :=
  st.peeredVpcIds.Nodup ∧ st.vpc.vpcId ∉ st.peeredVpcIds ∧
  ∀ v : String,
    st.peerings.countP (fun p => p.peerVpcId == v) = st.peeredVpcIds.count v

theorem linkInv_initAgent (vpc : Vpc) (region logLevel aid : String) :
    LinkInv (initAgent vpc region logLevel aid) := by
  refine ⟨?_, ?_, ?_⟩ <;> simp [initAgent, LinkInv]

theorem linkInv_of_fields {st st' : AgentState} (h : LinkInv st)
    (hv : st'.vpc = st.vpc) (hp : st'.peeredVpcIds = st.peeredVpcIds)
    (hr : st'.peerings = st.peerings) : LinkInv st' := by
  unfold LinkInv
  rw [hv, hp, hr]
  exact h

theorem linkInv_linkVpc {st : AgentState} (t : Vpc) (h : LinkInv st) :
    LinkInv (linkVpc st t) := by
  obtain ⟨hnd, hsrc, hcount⟩ := h
  by_cases h1 : t.vpcId = st.vpc.vpcId
  · apply linkInv_of_fields ⟨hnd, hsrc, hcount⟩ <;>
      simp [linkVpc, ensureVpcConnectivity, h1]
  · by_cases h2 : t.vpcId ∈ st.peeredVpcIds
    · apply linkInv_of_fields ⟨hnd, hsrc, hcount⟩ <;>
        simp [linkVpc, ensureVpcConnectivity, h1, h2]
    · refine ⟨?_, ?_, ?_⟩
      · simp only [linkVpc, ensureVpcConnectivity, if_neg h1, if_neg h2]
        rw [List.nodup_append]
        exact ⟨hnd, List.nodup_singleton _, List.disjoint_singleton.mpr h2⟩
      · simp only [linkVpc, ensureVpcConnectivity, if_neg h1, if_neg h2]
        simp only [List.mem_append, List.mem_singleton]
        rintro (hm | hm)
        · exact hsrc hm
        · exact h1 hm.symm
      · intro v
        simp only [linkVpc, ensureVpcConnectivity, if_neg h1, if_neg h2]
        rw [List.countP_append, List.count_append, hcount v]
        simp [List.countP_cons, List.count_singleton]

theorem linkInv_addPostgres {st : AgentState} (db : PgDatabase)
    (cfg : PostgresAgentConfig) (h : LinkInv st) :
    LinkInv (addPostgres st db cfg).1 := by
  cases db with
  | info i =>
    simp only [addPostgres]
    apply linkInv_of_fields h <;> simp
  | rds r =>
    simp only [addPostgres]
    have hpfx : LinkInv (createEnvPfx st "PSQL").2 :=
      linkInv_of_fields h rfl rfl rfl
    have hlink : LinkInv (linkVpc (createEnvPfx st "PSQL").2 r.vpc) :=
      linkInv_linkVpc r.vpc hpfx
    split
    · exact hpfx
    · split
      · exact hlink
      · exact linkInv_of_fields hlink (by simp) (by simp) (by simp)

theorem linkInv_applyOp {st : AgentState} (op : AgentOp) (h : LinkInv st) :
    LinkInv (applyOp st op) := by
  cases op with
  | link v => exact linkInv_linkVpc v h
  | postgres db cfg => exact linkInv_addPostgres db cfg h
  | activeDirectory t cfg =>
    exact linkInv_of_fields h (addActiveDirectory_vpc st t cfg)
      (addActiveDirectory_peeredVpcIds st t cfg) (addActiveDirectory_peerings st t cfg)

theorem linkInv_foldOps : ∀ (ops : List AgentOp) {st : AgentState}, LinkInv st →
    LinkInv (ops.foldl applyOp st) := by
  intro ops
  induction ops with
  | nil => intro st h; exact h
  | cons op rest ih =>
    intro st h
    simp only [List.foldl_cons]
    exact ih (linkInv_applyOp op h)

/-- The state of one `SlashidAgent` instance after construction followed by
a sequence of public calls. -/
def runAgent (src : Vpc) (region logLevel aid : String) (ops : List AgentOp) :
    AgentState :=
  ops.foldl applyOp (initAgent src region logLevel aid)

/-- C1: over every call sequence on one instance, at most one peering
connection exists per target VPC id; once a target id is in the peered set
there is exactly one peering for it, a further `linkVpc` call with any VPC
carrying that id is a complete no-op, and `ensureVpcConnectivity` with any
construct id (`linkId`) creates nothing for it. -/
theorem slashid_C1 (src : Vpc) (region logLevel aid : String) (ops : List AgentOp)
    (t : Vpc) (hmem : t.vpcId ∈ (runAgent src region logLevel aid ops).peeredVpcIds) :
    (runAgent src region logLevel aid ops).peerings.countP
        (fun p => p.peerVpcId == t.vpcId) = 1 ∧
    linkVpc (runAgent src region logLevel aid ops) t = runAgent src region logLevel aid ops ∧
    (∀ id : String,
      ensureVpcConnectivity (runAgent src region logLevel aid ops).vpc t id
          (runAgent src region logLevel aid ops).peeredVpcIds =
        ⟨(runAgent src region logLevel aid ops).peeredVpcIds, [], []⟩) ∧
    ∀ v : String,
      (runAgent src region logLevel aid ops).peerings.countP
        (fun p => p.peerVpcId == v) ≤ 1 := by
  simp only [runAgent] at hmem ⊢
  obtain ⟨hnd, hsrc, hcount⟩ :=
    linkInv_foldOps ops (linkInv_initAgent src region logLevel aid)
  have hne : ¬ t.vpcId =
      (ops.foldl applyOp (initAgent src region logLevel aid)).vpc.vpcId :=
    fun e => hsrc (e ▸ hmem)
  refine ⟨?_, ?_, ?_, ?_⟩
  · rw [hcount]
    exact List.count_eq_one_of_mem hnd hmem
  · simp [linkVpc, ensureVpcConnectivity, hne, hmem]
  · intro id
    simp [ensureVpcConnectivity, hne, hmem]
  · intro v
    rw [hcount]
    exact List.nodup_iff_count_le_one.mp hnd v

/-- Witness for C1: after one `linkVpc` call, a VPC object with the same id
(but different CIDR, as from a different lookup) is already peered and has
exactly one peering connection. -/
theorem slashid_C1_witness :
    (Vpc.mk "vpc-db" "10.9.9.0/24" [] []).vpcId ∈
      (runAgent (Vpc.mk "vpc-src" "10.0.0.0/16" ["rt1"] []) "eu-west-1" "INFO" "iid"
        [AgentOp.link (Vpc.mk "vpc-db" "10.1.0.0/16" [] [])]).peeredVpcIds ∧
    (runAgent (Vpc.mk "vpc-src" "10.0.0.0/16" ["rt1"] []) "eu-west-1" "INFO" "iid"
        [AgentOp.link (Vpc.mk "vpc-db" "10.1.0.0/16" [] [])]).peerings.countP
      (fun p => p.peerVpcId == (Vpc.mk "vpc-db" "10.9.9.0/24" [] []).vpcId) = 1 :=
  ⟨by decide,
   (slashid_C1 (Vpc.mk "vpc-src" "10.0.0.0/16" ["rt1"] []) "eu-west-1" "INFO" "iid"
      [AgentOp.link (Vpc.mk "vpc-db" "10.1.0.0/16" [] [])]
      (Vpc.mk "vpc-db" "10.9.9.0/24" [] []) (by decide)).1⟩

/-- Counterexample to C3 as stated: a failing `addPostgres` call on a
non-PostgreSQL RDS database does raise the configuration-mismatch error,
but the per-kind prefix counters are NOT left as they were — the `PSQL`
counter was already incremented before the engine check. -/
theorem slashid_C3_cex :
    (addPostgres (initAgent (Vpc.mk "v0" "10.0.0.0/16" [] []) "eu-west-1" "INFO" "iid")
        (.rds (RdsDatabase.mk (some "mysql") "db.example.com" 3306
          (Vpc.mk "v1" "10.1.0.0/16" [] []) (some (ISecret.mk "arn:db" "db-secret"))))
        (PostgresAgentConfig.mk (UploadConfig.mk (.str "tok") none none none none)
          none)).2 =
      some "addPostgres requires a PostgreSQL database, got: mysql" ∧
    ¬ ((addPostgres (initAgent (Vpc.mk "v0" "10.0.0.0/16" [] []) "eu-west-1" "INFO" "iid")
        (.rds (RdsDatabase.mk (some "mysql") "db.example.com" 3306
          (Vpc.mk "v1" "10.1.0.0/16" [] []) (some (ISecret.mk "arn:db" "db-secret"))))
        (PostgresAgentConfig.mk (UploadConfig.mk (.str "tok") none none none none)
          none)).1.envPrefixCounts =
      AgentState.envPrefixCounts
        (initAgent (Vpc.mk "v0" "10.0.0.0/16" [] []) "eu-west-1" "INFO" "iid")) := by
  decide

/-- C3 (amended): `addPostgres` on a managed database whose non-empty
engine type does not contain `postgres` throws the configuration-mismatch
error, leaving the environment mapping, fetch-command list, peered-VPC set
and created resources exactly as before — but the `PSQL` prefix counter has
already been incremented, so that ordinal is consumed. -/
theorem slashid_C3_amended (st : AgentState) (r : RdsDatabase)
    (cfg : PostgresAgentConfig) (e : String) (he : r.engineType = some e)
    (hne : ¬ e = "") (hpg : engineIncludesPostgres e = false) :
    addPostgres st (.rds r) cfg =
      ({ st with envPrefixCounts := alSet st.envPrefixCounts "PSQL" (getCount st "PSQL" + 1) },
       some ("addPostgres requires a PostgreSQL database, got: " ++ e)) := by
  simp only [addPostgres, he]
  simp [hne, hpg, createEnvPfx, getCount]

/-- Witness for the amended C3 at a concrete MySQL input. -/
theorem slashid_C3_witness :
    (RdsDatabase.mk (some "mysql") "h" 3306 (Vpc.mk "v1" "c" [] []) none).engineType =
      some "mysql" ∧
    ¬ ("mysql" = "") ∧ engineIncludesPostgres "mysql" = false ∧
    addPostgres (initAgent (Vpc.mk "v0" "c0" [] []) "eu" "INFO" "iid")
        (.rds (RdsDatabase.mk (some "mysql") "h" 3306 (Vpc.mk "v1" "c" [] []) none))
        (PostgresAgentConfig.mk (UploadConfig.mk (.str "t") none none none none) none) =
      ((createEnvPfx (initAgent (Vpc.mk "v0" "c0" [] []) "eu" "INFO" "iid") "PSQL").2,
       some ("addPostgres requires a PostgreSQL database, got: " ++ "mysql")) :=
  ⟨rfl, by decide, by decide,
   slashid_C3_amended (initAgent (Vpc.mk "v0" "c0" [] []) "eu" "INFO" "iid")
     (RdsDatabase.mk (some "mysql") "h" 3306 (Vpc.mk "v1" "c" [] []) none)
     (PostgresAgentConfig.mk (UploadConfig.mk (.str "t") none none none none) none)
     "mysql" rfl (by decide) (by decide)⟩

attribute [simp] addEnvOpt_containerEnv_get_ne

/-- Whether an environment value is a resolver-generated secret placeholder
(they all start with `secret(`). -/
def isSecretPlaceholder (v : String) : Bool :=
  "secret(".data.isPrefixOf v.data

/-- Counterexample to C7 as stated: for an RDS PostgreSQL database with an
owned credentials secret, of the five connection variables under the
allocated prefix exactly three (dbname, username, password) carry secret
placeholders — not four; host and port are both literals. -/
theorem slashid_C7_cex :
    ¬ (List.countP (fun f =>
        isSecretPlaceholder ((alGet (addPostgres
            (initAgent (Vpc.mk "v0" "10.0.0.0/16" [] []) "eu-west-1" "INFO" "iid")
            (.rds (RdsDatabase.mk (some "postgres") "db.example.com" 5432
              (Vpc.mk "v1" "10.1.0.0/16" [] []) (some (ISecret.mk "arn:db" "db-secret"))))
            (PostgresAgentConfig.mk (UploadConfig.mk (.str "tok") none none none none)
              none)).1.containerEnv ("PSQL_1_" ++ f)).getD ""))
        ["HOST", "PORT", "DBNAME", "USERNAME", "PASSWORD"] = 4) ∧
    List.countP (fun f =>
        isSecretPlaceholder ((alGet (addPostgres
            (initAgent (Vpc.mk "v0" "10.0.0.0/16" [] []) "eu-west-1" "INFO" "iid")
            (.rds (RdsDatabase.mk (some "postgres") "db.example.com" 5432
              (Vpc.mk "v1" "10.1.0.0/16" [] []) (some (ISecret.mk "arn:db" "db-secret"))))
            (PostgresAgentConfig.mk (UploadConfig.mk (.str "tok") none none none none)
              none)).1.containerEnv ("PSQL_1_" ++ f)).getD ""))
        ["HOST", "PORT", "DBNAME", "USERNAME", "PASSWORD"] = 3 := by
  decide

/-- C7 (amended): `addPostgres` on a managed database owning a credentials
secret succeeds and renders exactly the five connection variables under the
single allocated prefix, of which three (dbname, username, password) carry
secret placeholders while host and port are literals taken from the
resource's endpoint. -/
theorem slashid_C7_amended (st : AgentState) (r : RdsDatabase)
    (cfg : PostgresAgentConfig) (secret : ISecret) (hs : r.secret = some secret)
    (hok : r.engineType = none ∨
      ∃ e, r.engineType = some e ∧ engineIncludesPostgres e = true) :
    (addPostgres st (.rds r) cfg).2 = none ∧
    alGet (addPostgres st (.rds r) cfg).1.containerEnv
        (("PSQL" ++ "_" ++ toString (getCount st "PSQL" + 1) ++ "_") ++ "HOST") =
      some r.endpointHostname ∧
    alGet (addPostgres st (.rds r) cfg).1.containerEnv
        (("PSQL" ++ "_" ++ toString (getCount st "PSQL" + 1) ++ "_") ++ "PORT") =
      some (toString r.endpointPort) ∧
    alGet (addPostgres st (.rds r) cfg).1.containerEnv
        (("PSQL" ++ "_" ++ toString (getCount st "PSQL" + 1) ++ "_") ++ "DBNAME") =
      some ("secret(" ++ secret.secretName ++ ")." ++ "dbname") ∧
    alGet (addPostgres st (.rds r) cfg).1.containerEnv
        (("PSQL" ++ "_" ++ toString (getCount st "PSQL" + 1) ++ "_") ++ "USERNAME") =
      some ("secret(" ++ secret.secretName ++ ")." ++ "username") ∧
    alGet (addPostgres st (.rds r) cfg).1.containerEnv
        (("PSQL" ++ "_" ++ toString (getCount st "PSQL" + 1) ++ "_") ++ "PASSWORD") =
      some ("secret(" ++ secret.secretName ++ ")." ++ "password") := by
  have hbad : (match r.engineType with
      | some e => ((¬ (e = "") : Bool) && ¬ engineIncludesPostgres e)
      | none => false) = false := by
    rcases hok with hnone | ⟨e, he, hinc⟩
    · rw [hnone]
    · rw [he]
      simp [hinc]
  simp only [addPostgres, hbad, Bool.false_eq_true, if_false, hs]
  simp [addPostgresInfo, setUploadConfig, credentialFromSecret, renderedValue]

/-- Witness for the amended C7 at a concrete RDS PostgreSQL database. -/
theorem slashid_C7_witness :
    (RdsDatabase.mk (some "postgres") "db.example.com" 5432 (Vpc.mk "v1" "c" [] [])
        (some (ISecret.mk "arn:db" "db-secret"))).secret =
      some (ISecret.mk "arn:db" "db-secret") ∧
    (addPostgres (initAgent (Vpc.mk "v0" "c0" [] []) "eu" "INFO" "iid")
        (.rds (RdsDatabase.mk (some "postgres") "db.example.com" 5432
          (Vpc.mk "v1" "c" [] []) (some (ISecret.mk "arn:db" "db-secret"))))
        (PostgresAgentConfig.mk (UploadConfig.mk (.str "t") none none none none)
          none)).2 = none ∧
    alGet (addPostgres (initAgent (Vpc.mk "v0" "c0" [] []) "eu" "INFO" "iid")
        (.rds (RdsDatabase.mk (some "postgres") "db.example.com" 5432
          (Vpc.mk "v1" "c" [] []) (some (ISecret.mk "arn:db" "db-secret"))))
        (PostgresAgentConfig.mk (UploadConfig.mk (.str "t") none none none none)
          none)).1.containerEnv
        (("PSQL" ++ "_" ++ toString (getCount (initAgent (Vpc.mk "v0" "c0" [] [])
          "eu" "INFO" "iid") "PSQL" + 1) ++ "_") ++ "DBNAME") =
      some ("secret(" ++ "db-secret" ++ ")." ++ "dbname") :=
  ⟨rfl,
   (slashid_C7_amended (initAgent (Vpc.mk "v0" "c0" [] []) "eu" "INFO" "iid")
      (RdsDatabase.mk (some "postgres") "db.example.com" 5432 (Vpc.mk "v1" "c" [] [])
        (some (ISecret.mk "arn:db" "db-secret")))
      (PostgresAgentConfig.mk (UploadConfig.mk (.str "t") none none none none) none)
      (ISecret.mk "arn:db" "db-secret") rfl
      (Or.inr ⟨"postgres", rfl, by decide⟩)).1,
   (slashid_C7_amended (initAgent (Vpc.mk "v0" "c0" [] []) "eu" "INFO" "iid")
      (RdsDatabase.mk (some "postgres") "db.example.com" 5432 (Vpc.mk "v1" "c" [] [])
        (some (ISecret.mk "arn:db" "db-secret")))
      (PostgresAgentConfig.mk (UploadConfig.mk (.str "t") none none none none) none)
      (ISecret.mk "arn:db" "db-secret") rfl
      (Or.inr ⟨"postgres", rfl, by decide⟩)).2.2.2.1⟩

/-- Counterexample to C8 as stated: when the caller omits the upload
interval and the retry/backoff limits, they are not rendered into the
environment mapping at all (no defined default is applied); only the
destination URL receives a default. -/
theorem slashid_C8_cex :
    alGet (setUploadConfig (initAgent (Vpc.mk "v" "c" [] []) "eu" "INFO" "iid")
        "PSQL_1_" (UploadConfig.mk (.str "tok") none none none none)).containerEnv
      ("PSQL_1_" ++ "UPLOAD_INTERVAL") = none ∧
    alGet (setUploadConfig (initAgent (Vpc.mk "v" "c" [] []) "eu" "INFO" "iid")
        "PSQL_1_" (UploadConfig.mk (.str "tok") none none none none)).containerEnv
      ("PSQL_1_" ++ "MAX_CONSECUTIVE_FAILURES") = none ∧
    alGet (setUploadConfig (initAgent (Vpc.mk "v" "c" [] []) "eu" "INFO" "iid")
        "PSQL_1_" (UploadConfig.mk (.str "tok") none none none none)).containerEnv
      ("PSQL_1_" ++ "MAX_BACKOFF_INTERVAL") = none ∧
    alGet (setUploadConfig (initAgent (Vpc.mk "v" "c" [] []) "eu" "INFO" "iid")
        "PSQL_1_" (UploadConfig.mk (.str "tok") none none none none)).containerEnv
      ("PSQL_1_" ++ "UPLOAD_URL") = some DEFAULT_UPLOAD_URL := by
  decide

/-- C8 (amended): the destination URL is always rendered (with its default
when omitted); the upload interval and the retry/backoff limits are
rendered only when the caller supplies them (an omitted one leaves the
mapping untouched); all of these are literals under the call's prefix, and
the only upload parameter that can emit a boot-time fetch command is the
auth token. -/
theorem slashid_C8 (st : AgentState) (envPfx : String) (c : UploadConfig) :
    alGet (setUploadConfig st envPfx c).containerEnv (envPfx ++ "UPLOAD_URL") =
      some (c.upload_url.getD DEFAULT_UPLOAD_URL) ∧
    (c.upload_interval = none →
      alGet (setUploadConfig st envPfx c).containerEnv (envPfx ++ "UPLOAD_INTERVAL") =
        alGet st.containerEnv (envPfx ++ "UPLOAD_INTERVAL")) ∧
    (∀ n, c.upload_interval = some n →
      alGet (setUploadConfig st envPfx c).containerEnv (envPfx ++ "UPLOAD_INTERVAL") =
        some (toString n)) ∧
    (c.max_consecutive_failures = none →
      alGet (setUploadConfig st envPfx c).containerEnv
          (envPfx ++ "MAX_CONSECUTIVE_FAILURES") =
        alGet st.containerEnv (envPfx ++ "MAX_CONSECUTIVE_FAILURES")) ∧
    (∀ n, c.max_consecutive_failures = some n →
      alGet (setUploadConfig st envPfx c).containerEnv
          (envPfx ++ "MAX_CONSECUTIVE_FAILURES") = some (toString n)) ∧
    (c.max_backoff_interval = none →
      alGet (setUploadConfig st envPfx c).containerEnv
          (envPfx ++ "MAX_BACKOFF_INTERVAL") =
        alGet st.containerEnv (envPfx ++ "MAX_BACKOFF_INTERVAL")) ∧
    (∀ n, c.max_backoff_interval = some n →
      alGet (setUploadConfig st envPfx c).containerEnv
          (envPfx ++ "MAX_BACKOFF_INTERVAL") = some (toString n)) ∧
    (setUploadConfig st envPfx c).fetchSecretsCommands =
      st.fetchSecretsCommands ++
        fetchCmdsFor st.region (envPfx ++ "SLASHID_AUTH_TOKEN") c.slashid_auth_token := by
  obtain ⟨tok, url, oi, mf, mb⟩ := c
  cases oi <;> cases mf <;> cases mb <;>
    simp [setUploadConfig, renderedValue]

/-- Witness for C8 at a concrete configuration that omits the interval and
limits. -/
theorem slashid_C8_witness :
    (UploadConfig.mk (.str "tok") none none none none).upload_interval = none ∧
    alGet (setUploadConfig (initAgent (Vpc.mk "v" "c" [] []) "eu" "INFO" "iid")
        "PSQL_1_" (UploadConfig.mk (.str "tok") none none none none)).containerEnv
      ("PSQL_1_" ++ "UPLOAD_INTERVAL") =
      alGet (initAgent (Vpc.mk "v" "c" [] []) "eu" "INFO" "iid").containerEnv
        ("PSQL_1_" ++ "UPLOAD_INTERVAL") ∧
    alGet (setUploadConfig (initAgent (Vpc.mk "v" "c" [] []) "eu" "INFO" "iid")
        "PSQL_1_" (UploadConfig.mk (.str "tok") none none none none)).containerEnv
      ("PSQL_1_" ++ "UPLOAD_URL") =
      some ((none : Option String).getD DEFAULT_UPLOAD_URL) :=
  ⟨rfl,
   (slashid_C8 (initAgent (Vpc.mk "v" "c" [] []) "eu" "INFO" "iid") "PSQL_1_"
      (UploadConfig.mk (.str "tok") none none none none)).2.1 rfl,
   (slashid_C8 (initAgent (Vpc.mk "v" "c" [] []) "eu" "INFO" "iid") "PSQL_1_"
      (UploadConfig.mk (.str "tok") none none none none)).1⟩

/-- All field suffixes a WMI loop iteration can write under its prefix. -/
def wmiFieldNames : List String :=
  ["DOMAIN", "TARGET_DC", "USERNAME", "PASSWORD", "SLASHID_AUTH_TOKEN", "STREAM_URL",
   "NAMESPACE", "HASHES", "KERBEROS_AUTH", "AES_KEY", "RPC_AUTH_LEVEL", "TIMEOUT",
   "EVENTS_PULL_INTERVAL", "MAX_EVENTS_PER_PULL", "CONNECTION_ERROR_DELAY"]

theorem getCount_addWmiDc (d : String) (w : WMiCollectorConfig) (st : AgentState)
    (dc : DomainControler) :
    getCount (addWmiDc d w st dc) "WMI" = getCount st "WMI" + 1 := by
  simp [getCount, alGet_alSet]

theorem getCount_addWmiDc_ne (d : String) (w : WMiCollectorConfig) (st : AgentState)
    (dc : DomainControler) (k : String) (h : ¬ "WMI" = k) :
    getCount (addWmiDc d w st dc) k = getCount st k := by
  simp [getCount, alGet_alSet, h]

theorem wmiFold_getCount (d : String) (w : WMiCollectorConfig) :
    ∀ (dcs : List DomainControler) (st : AgentState),
      getCount (dcs.foldl (addWmiDc d w) st) "WMI" = getCount st "WMI" + dcs.length := by
  intro dcs
  induction dcs with
  | nil => intro st; simp
  | cons dc rest ih =>
    intro st
    simp only [List.foldl_cons, List.length_cons]
    rw [ih (addWmiDc d w st dc), getCount_addWmiDc]
    omega

theorem wmiFold_getCount_ne (d : String) (w : WMiCollectorConfig) (k : String)
    (h : ¬ "WMI" = k) :
    ∀ (dcs : List DomainControler) (st : AgentState),
      getCount (dcs.foldl (addWmiDc d w) st) k = getCount st k := by
  intro dcs
  induction dcs with
  | nil => intro st; rfl
  | cons dc rest ih =>
    intro st
    simp only [List.foldl_cons]
    rw [ih (addWmiDc d w st dc), getCount_addWmiDc_ne d w st dc k h]

theorem alGet_addEnv_ne (st : AgentState) (n : String) (v : StringOrSecret)
    (n' : String) (h : ¬ n = n') :
    alGet (addEnv st n v).containerEnv n' = alGet st.containerEnv n' := by
  simp [h]

theorem addWmiDc_env_preserved (d : String) (w : WMiCollectorConfig) (st : AgentState)
    (dc : DomainControler) (name : String)
    (hname : ∀ F ∈ wmiFieldNames,
      ¬ (("WMI" ++ "_" ++ toString (getCount st "WMI" + 1) ++ "_") ++ F = name)) :
    alGet (addWmiDc d w st dc).containerEnv name = alGet st.containerEnv name := by
  have h01 := hname "DOMAIN" (by decide)
  have h02 := hname "TARGET_DC" (by decide)
  have h03 := hname "USERNAME" (by decide)
  have h04 := hname "PASSWORD" (by decide)
  have h05 := hname "SLASHID_AUTH_TOKEN" (by decide)
  have h06 := hname "STREAM_URL" (by decide)
  have h07 := hname "NAMESPACE" (by decide)
  have h08 := hname "HASHES" (by decide)
  have h09 := hname "KERBEROS_AUTH" (by decide)
  have h10 := hname "AES_KEY" (by decide)
  have h11 := hname "RPC_AUTH_LEVEL" (by decide)
  have h12 := hname "TIMEOUT" (by decide)
  have h13 := hname "EVENTS_PULL_INTERVAL" (by decide)
  have h14 := hname "MAX_EVENTS_PER_PULL" (by decide)
  have h15 := hname "CONNECTION_ERROR_DELAY" (by decide)
  simp only [addWmiDc, createEnvPfx_fst]
  rw [addEnvOpt_containerEnv_get_ne _ _ _ _ h15,
      addEnvOpt_containerEnv_get_ne _ _ _ _ h14,
      addEnvOpt_containerEnv_get_ne _ _ _ _ h13,
      addEnvOpt_containerEnv_get_ne _ _ _ _ h12,
      addEnvOpt_containerEnv_get_ne _ _ _ _ h11,
      addEnvOpt_containerEnv_get_ne _ _ _ _ h10,
      addEnvOpt_containerEnv_get_ne _ _ _ _ h09,
      addEnvOpt_containerEnv_get_ne _ _ _ _ h08,
      addEnvOpt_containerEnv_get_ne _ _ _ _ h07,
      alGet_addEnv_ne _ _ _ _ h06,
      alGet_addEnv_ne _ _ _ _ h05,
      alGet_addEnv_ne _ _ _ _ h04,
      alGet_addEnv_ne _ _ _ _ h03,
      alGet_addEnv_ne _ _ _ _ h02,
      alGet_addEnv_ne _ _ _ _ h01]
  rfl

theorem addWmiDc_targetDc (d : String) (w : WMiCollectorConfig) (st : AgentState)
    (dc : DomainControler) :
    alGet (addWmiDc d w st dc).containerEnv
        (("WMI" ++ "_" ++ toString (getCount st "WMI" + 1) ++ "_") ++ "TARGET_DC") =
      some dc.host := by
  simp only [addWmiDc]
  simp [renderedValue]

theorem wmiFold_env_preserved (d : String) (w : WMiCollectorConfig) :
    ∀ (dcs : List DomainControler) (st : AgentState) (name : String),
      (∀ (m : Nat) (F : String), F ∈ wmiFieldNames → getCount st "WMI" < m →
        ¬ (("WMI" ++ "_" ++ toString m ++ "_") ++ F = name)) →
      alGet (dcs.foldl (addWmiDc d w) st).containerEnv name =
        alGet st.containerEnv name := by
  intro dcs
  induction dcs with
  | nil => intro st name _; rfl
  | cons dc rest ih =>
    intro st name h
    simp only [List.foldl_cons]
    rw [ih (addWmiDc d w st dc) name ?h2,
        addWmiDc_env_preserved d w st dc name ?h1]
    case h1 =>
      intro F hF
      exact h (getCount st "WMI" + 1) F hF (by omega)
    case h2 =>
      intro m F hF hm
      apply h m F hF
      rw [getCount_addWmiDc] at hm
      omega

theorem wmiFold_targetDc (d : String) (w : WMiCollectorConfig) :
    ∀ (dcs : List DomainControler) (st : AgentState) (i : Nat) (hi : i < dcs.length),
      alGet (dcs.foldl (addWmiDc d w) st).containerEnv
          (("WMI" ++ "_" ++ toString (getCount st "WMI" + i + 1) ++ "_") ++ "TARGET_DC")
        = some ((dcs.get ⟨i, hi⟩).host) := by
  intro dcs
  induction dcs with
  | nil => intro st i hi; exact absurd hi (by simp)
  | cons dc rest ih =>
    intro st i hi
    simp only [List.foldl_cons]
    cases i with
    | zero =>
      rw [wmiFold_env_preserved d w rest (addWmiDc d w st dc) _ ?hpres]
      · simpa using addWmiDc_targetDc d w st dc
      case hpres =>
        intro m F hF hm heq
        obtain ⟨hm2, _⟩ := kindName_inj "WMI" m (getCount st "WMI" + 0 + 1) F
          "TARGET_DC" heq
        rw [getCount_addWmiDc] at hm
        omega
    | succ j =>
      have hj : j < rest.length := by
        simp only [List.length_cons] at hi
        omega
      have hrec := ih (addWmiDc d w st dc) j hj
      rw [getCount_addWmiDc] at hrec
      have harith : getCount st "WMI" + (j + 1) + 1 = getCount st "WMI" + 1 + j + 1 := by
        omega
      rw [harith]
      simpa using hrec

theorem getCount_addAdSnapshot (st : AgentState) (ad : ActiveDirectoryInfo)
    (sc : ActiveDirectorySnapshotCollectorConfig) :
    getCount (addAdSnapshot st ad sc) "AD_SNAPSHOT" = getCount st "AD_SNAPSHOT" + 1 := by
  simp [getCount, alGet_alSet]

theorem getCount_addAdSnapshot_ne (st : AgentState) (ad : ActiveDirectoryInfo)
    (sc : ActiveDirectorySnapshotCollectorConfig) (k : String)
    (h : ¬ "AD_SNAPSHOT" = k) :
    getCount (addAdSnapshot st ad sc) k = getCount st k := by
  simp [getCount, alGet_alSet, h]

theorem addAdSnapshot_targetDc (st : AgentState) (ad : ActiveDirectoryInfo)
    (sc : ActiveDirectorySnapshotCollectorConfig) :
    alGet (addAdSnapshot st ad sc).containerEnv
        (("AD_SNAPSHOT" ++ "_" ++ toString (getCount st "AD_SNAPSHOT" + 1) ++ "_") ++
          "TARGET_DC") =
      some ((ad.domainControllers.headD ⟨"", 0, false⟩).host) := by
  simp only [addAdSnapshot]
  simp [setUploadConfig, renderedValue]

theorem headD_eq_get {α : Type} (l : List α) (d : α) (h : 0 < l.length) :
    l.headD d = l.get ⟨0, h⟩ := by
  cases l with
  | nil => exact absurd h (by simp)
  | cons a rest => rfl

/-- C6: an `addActiveDirectory` call with both snapshot and WMI collection
on a directory with at least one controller allocates exactly one
`AD_SNAPSHOT` namespace (configured against the first controller) and
exactly one `WMI` namespace per controller, each configured against its own
controller, with pairwise distinct prefixes. -/
theorem slashid_C6 (st : AgentState) (ad : ActiveDirectoryInfo)
    (sc : ActiveDirectorySnapshotCollectorConfig) (w : WMiCollectorConfig)
    (h : 0 < ad.domainControllers.length) :
    getCount (addActiveDirectory st (.info ad) ⟨some sc, some w⟩) "AD_SNAPSHOT" =
      getCount st "AD_SNAPSHOT" + 1 ∧
    getCount (addActiveDirectory st (.info ad) ⟨some sc, some w⟩) "WMI" =
      getCount st "WMI" + ad.domainControllers.length ∧
    alGet (addActiveDirectory st (.info ad) ⟨some sc, some w⟩).containerEnv
        (("AD_SNAPSHOT" ++ "_" ++ toString (getCount st "AD_SNAPSHOT" + 1) ++ "_") ++
          "TARGET_DC") =
      some ((ad.domainControllers.get ⟨0, h⟩).host) ∧
    (∀ (i : Nat) (hi : i < ad.domainControllers.length),
      alGet (addActiveDirectory st (.info ad) ⟨some sc, some w⟩).containerEnv
          (("WMI" ++ "_" ++ toString (getCount st "WMI" + i + 1) ++ "_") ++
            "TARGET_DC") =
        some ((ad.domainControllers.get ⟨i, hi⟩).host)) ∧
    (∀ i j : Nat,
      ("WMI" ++ "_" ++ toString (getCount st "WMI" + i + 1) ++ "_") =
        ("WMI" ++ "_" ++ toString (getCount st "WMI" + j + 1) ++ "_") → i = j) := by
  have hun : addActiveDirectory st (.info ad) ⟨some sc, some w⟩ =
      ad.domainControllers.foldl (addWmiDc ad.domain w) (addAdSnapshot st ad sc) := rfl
  refine ⟨?_, ?_, ?_, ?_, ?_⟩
  · rw [hun, wmiFold_getCount_ne ad.domain w "AD_SNAPSHOT" (by decide),
        getCount_addAdSnapshot]
  · rw [hun, wmiFold_getCount, getCount_addAdSnapshot_ne st ad sc "WMI" (by decide)]
  · rw [hun]
    have hpr : ∀ (m : Nat) (F : String), F ∈ wmiFieldNames →
        getCount (addAdSnapshot st ad sc) "WMI" < m →
        ¬ (("WMI" ++ "_" ++ toString m ++ "_") ++ F =
          ("AD_SNAPSHOT" ++ "_" ++ toString (getCount st "AD_SNAPSHOT" + 1) ++ "_") ++
            "TARGET_DC") := by
      intro m F _ _ heq
      exact adsnap_name_ne_wmi (getCount st "AD_SNAPSHOT" + 1) m "TARGET_DC" F heq.symm
    rw [wmiFold_env_preserved ad.domain w ad.domainControllers (addAdSnapshot st ad sc)
          _ hpr,
        addAdSnapshot_targetDc, headD_eq_get ad.domainControllers ⟨"", 0, false⟩ h]
  · intro i hi
    rw [hun]
    have hrec := wmiFold_targetDc ad.domain w ad.domainControllers
      (addAdSnapshot st ad sc) i hi
    rw [getCount_addAdSnapshot_ne st ad sc "WMI" (by decide)] at hrec
    exact hrec
  · intro i j heq
    have h2 : ("WMI" ++ "_" ++ toString (getCount st "WMI" + i + 1) ++ "_") ++ "" =
        ("WMI" ++ "_" ++ toString (getCount st "WMI" + j + 1) ++ "_") ++ "" := by
      rw [String.append_empty, String.append_empty]
      exact heq
    obtain ⟨hm, _⟩ := kindName_inj "WMI" _ _ "" "" h2
    omega

/-- Witness for C6 at a directory with two controllers: two distinct WMI
prefixes, the second configured against the second controller, and one
snapshot prefix against the first controller. -/
theorem slashid_C6_witness :
    0 < (ActiveDirectoryInfo.mk "corp.example"
        [DomainControler.mk "dc1.corp" 389 false, DomainControler.mk "dc2.corp" 389 false]
        ["dc1.corp"]).domainControllers.length ∧
    getCount (addActiveDirectory (initAgent (Vpc.mk "v" "c" [] []) "eu" "INFO" "iid")
        (.info (ActiveDirectoryInfo.mk "corp.example"
          [DomainControler.mk "dc1.corp" 389 false,
           DomainControler.mk "dc2.corp" 389 false] ["dc1.corp"]))
        ⟨some (ActiveDirectorySnapshotCollectorConfig.mk
            (UploadConfig.mk (.str "t") none none none none)
            (Credential.mk (.str "u") (.str "p")) none none),
         some (WMiCollectorConfig.mk (.str "t2") (Credential.mk (.str "u") (.str "p"))
            none none none none none none none none none none)⟩) "WMI" =
      getCount (initAgent (Vpc.mk "v" "c" [] []) "eu" "INFO" "iid") "WMI" + 2 ∧
    alGet (addActiveDirectory (initAgent (Vpc.mk "v" "c" [] []) "eu" "INFO" "iid")
        (.info (ActiveDirectoryInfo.mk "corp.example"
          [DomainControler.mk "dc1.corp" 389 false,
           DomainControler.mk "dc2.corp" 389 false] ["dc1.corp"]))
        ⟨some (ActiveDirectorySnapshotCollectorConfig.mk
            (UploadConfig.mk (.str "t") none none none none)
            (Credential.mk (.str "u") (.str "p")) none none),
         some (WMiCollectorConfig.mk (.str "t2") (Credential.mk (.str "u") (.str "p"))
            none none none none none none none none none none)⟩).containerEnv
        (("WMI" ++ "_" ++
          toString (getCount (initAgent (Vpc.mk "v" "c" [] []) "eu" "INFO" "iid") "WMI"
            + 1 + 1) ++ "_") ++ "TARGET_DC") =
      some "dc2.corp" :=
  ⟨by decide,
   (slashid_C6 (initAgent (Vpc.mk "v" "c" [] []) "eu" "INFO" "iid")
      (ActiveDirectoryInfo.mk "corp.example"
        [DomainControler.mk "dc1.corp" 389 false, DomainControler.mk "dc2.corp" 389 false]
        ["dc1.corp"])
      (ActiveDirectorySnapshotCollectorConfig.mk
        (UploadConfig.mk (.str "t") none none none none)
        (Credential.mk (.str "u") (.str "p")) none none)
      (WMiCollectorConfig.mk (.str "t2") (Credential.mk (.str "u") (.str "p"))
        none none none none none none none none none none) (by decide)).2.1,
   (slashid_C6 (initAgent (Vpc.mk "v" "c" [] []) "eu" "INFO" "iid")
      (ActiveDirectoryInfo.mk "corp.example"
        [DomainControler.mk "dc1.corp" 389 false, DomainControler.mk "dc2.corp" 389 false]
        ["dc1.corp"])
      (ActiveDirectorySnapshotCollectorConfig.mk
        (UploadConfig.mk (.str "t") none none none none)
        (Credential.mk (.str "u") (.str "p")) none none)
      (WMiCollectorConfig.mk (.str "t2") (Credential.mk (.str "u") (.str "p"))
        none none none none none none none none none none) (by decide)).2.2.2.1 1
      (by decide)⟩
